import Mathlib

set_option maxRecDepth 100000

/-!
Shallow embedding of the TLS/certificate security-assessment engine of the
`devtools` repository (files `src-tauri/src/tools/ssl_checker.rs` and
`src-tauri/src/tools/certificate_viewer.rs`), together with theorems settling
the claims about it.

Modelling conventions:
* Rust `u32`/`u8`/`usize` quantities are modelled as `Nat`; `saturating_sub`
  is Nat subtraction, wrapping casts are `% 2^w` where they matter.
* Rust `f32` arithmetic (used only by the score computations) is modelled
  exactly: an `f32` value is a dyadic rational `m * 2^e` (`F32`), and every
  Rust float operation (cast, `+`, `*`, `/`) is mirrored by one IEEE-754
  round-to-nearest-even rounding step to a 24-bit significand.  The bounded
  exponent search of `findExp` is exact for all values in `[2^-64, 2^64)`,
  which contains every value the Rust scorer can produce (scores are at most
  `131`, counts are Rust `usize` values below `2^63`, fractions of counts are
  at least `2^-63`); subnormal/overflow handling is therefore never needed.
* Clock reads (`chrono::Utc::now`) are modelled by an explicit `now : Int`
  parameter (Unix seconds); an RFC3339 timestamp string is modelled by the
  `Option Int` of its Unix time (`none` = the string does not parse).
* External library calls (DNS, sockets, the x509 DER parser) are modelled
  by explicit oracle inputs carrying their outcome, since they are not code
  of this repository.
-/

deriving instance DecidableEq for Except

namespace Devtools

/-- Round `a / b` (`b > 0`) to the nearest integer, ties to even. -/
def roundHalfEven (a b : ℤ) : ℤ :=
  let n := Int.fdiv a b
  let r := a - n * b
  if b < 2 * r then n + 1
  else if 2 * r < b then n
  else if n % 2 = 0 then n else n + 1

/-- The binade exponent of the positive rational `p / q`: the largest
`e ∈ [-64, 63]` with `2 ^ e ≤ p / q`.  Implemented as a bounded structural
search so that it evaluates inside the kernel; the bound is never reached by
the modelled code (see the module docstring). -/
def findExp (p q : ℤ) : ℤ :=
  (List.range 128).foldl
    (fun (acc : ℤ) (i : ℕ) =>
      if q * (2 : ℤ) ^ i ≤ p * (2 : ℤ) ^ (64 : ℕ) then (i : ℤ) - 64 else acc)
    (-64)

/-- An IEEE-754 binary32 value `m * 2^e`, kept in canonical form by the
rounding function (`m = 0`, or `2^23 ≤ m < 2^24`). -/
structure F32 where
  m : ℤ
  e : ℤ
deriving DecidableEq, Repr

/-- Round the exact rational `(num / den) * 2 ^ ex` (`den > 0`) to the nearest
binary32 value, ties to even.  Non-positive inputs (which the modelled code
never produces) collapse to `0`. -/
def f32ofRatio (num den : ℤ) (ex : ℤ) : F32 :=
  if num ≤ 0 then ⟨0, 0⟩
  else
    let e0 := findExp num den
    let e := e0 + ex
    let k := 23 - e0
    let m :=
      if 0 ≤ k then roundHalfEven (num * 2 ^ k.toNat) den
      else roundHalfEven num (den * 2 ^ (-k).toNat)
    if m = 2 ^ 24 then ⟨2 ^ 23, e - 22⟩ else ⟨m, e - 23⟩

/-- Rust `n as f32` for an unsigned integer (rounds to nearest even). -/
def f32ofNat (n : ℕ) : F32 := f32ofRatio (n : ℤ) 1 0

/-- IEEE binary32 addition (exact sum, then one rounding). -/
def F32.add (a b : F32) : F32 :=
  if a.m = 0 then b
  else if b.m = 0 then a
  else
    let e := min a.e b.e
    f32ofRatio (a.m * 2 ^ (a.e - e).toNat + b.m * 2 ^ (b.e - e).toNat) 1 e

/-- IEEE binary32 multiplication (exact product, then one rounding). -/
def F32.mul (a b : F32) : F32 := f32ofRatio (a.m * b.m) 1 (a.e + b.e)

/-- IEEE binary32 division (exact quotient, then one rounding); division by
zero (never reached: guarded by an emptiness check in the source) gives 0. -/
def F32.div (a b : F32) : F32 :=
  if b.m = 0 then ⟨0, 0⟩ else f32ofRatio a.m b.m (a.e - b.e)

/-- Rust `x as u32` for the non-negative floats produced by the scorer
(truncation toward zero). -/
def F32.toU32 (x : F32) : ℕ :=
  (if 0 ≤ x.e then x.m * 2 ^ x.e.toNat else Int.fdiv x.m (2 ^ (-x.e).toNat)).toNat

/-- The `f32` literal `0.30`. -/
def lit030 : F32 := f32ofRatio 3 10 0

/-- The `f32` literal `0.10`. -/
def lit010 : F32 := f32ofRatio 1 10 0

/-- The `f32` literal `0.70`. -/
def lit070 : F32 := f32ofRatio 7 10 0

/-- Rust `str::to_lowercase`, restricted to its ASCII behaviour (all strings
the code lower-cases are ASCII cipher-suite names, algorithm names or
hostnames). -/
def rustToLower (s : String) : String := String.mk (s.data.map Char.toLower)

/-- Rust `str::to_uppercase`, restricted to its ASCII behaviour. -/
def rustToUpper (s : String) : String := String.mk (s.data.map Char.toUpper)

/-- Rust `str::contains` (substring test). -/
def strContains (s pat : String) : Bool :=
  decide (pat.data <:+: s.data)

namespace SslChecker

/-- `CipherSuite` of `ssl_checker.rs`. -/
structure CipherSuite where
  name : String
  version : String
  strength : String
  server_order : Bool
deriving DecidableEq, Repr

/-- `classify_cipher_suite_strength` of `ssl_checker.rs` (lines 239-271),
translated clause for clause. -/
def classify_cipher_suite_strength (cipher_name : String) : String :=
  let cipher_lower := rustToLower cipher_name
  if strContains cipher_lower "null"
      || strContains cipher_lower "anon"
      || strContains cipher_lower "export"
      || (strContains cipher_lower "des" && !strContains cipher_lower "3des")
      || strContains cipher_lower "rc4"
      || strContains cipher_lower "md5" then
    "WEAK"
  else if strContains cipher_lower "3des"
      || strContains cipher_lower "aes128"
      || strContains cipher_lower "camellia128" then
    "MEDIUM"
  else if strContains cipher_lower "aes256"
      || strContains cipher_lower "chacha20"
      || strContains cipher_lower "gcm"
      || strContains cipher_lower "poly1305" then
    "HIGH"
  else
    "MEDIUM"

/-- `SslCertificate` of `ssl_checker.rs`.  The RFC3339 `valid_from`/`valid_to`
strings are modelled by the `Option Int` of their Unix time (`none` = a string
`chrono::DateTime::parse_from_rfc3339` rejects). -/
structure SslCertificate where
  subject : String
  issuer : String
  valid_from : Option ℤ
  valid_to : Option ℤ
  fingerprint : String
  serial_number : String
  signature_algorithm : String
  public_key_algorithm : String
  key_size : Option ℕ
  san_domains : Option (List String)
deriving DecidableEq, Repr, Inhabited

/-- `chrono`'s `(valid_to_utc - now).num_days()`: whole-second duration,
truncated toward zero at day granularity (`Int.div` is Rust's `/`). -/
def days_until_expiry (now vt : ℤ) : ℤ := Int.tdiv (vt - now) 86400

/-- `calculate_certificate_score` of `ssl_checker.rs` (lines 1512-1570). -/
def calculate_certificate_score (now : ℤ) (cert : SslCertificate) : ℕ :=
  let score : ℕ := 100
  let score :=
    match cert.valid_to with
    | some vt =>
      if days_until_expiry now vt < 0 then 0
      else if days_until_expiry now vt < 7 then score - 50
      else if days_until_expiry now vt < 30 then score - 20
      else score
    | none => score
  let score :=
    match cert.key_size with
    | some key_size =>
      let key_penalty : ℕ :=
        if cert.public_key_algorithm = "RSA" then
          if key_size < 1024 then 60
          else if key_size < 2048 then 30
          else if key_size < 3072 then 5
          else 0
        else if cert.public_key_algorithm = "EC" ∨ cert.public_key_algorithm = "ECDSA" then
          if key_size < 256 then 40
          else if key_size < 384 then 10
          else 0
        else 0
      score - key_penalty
    | none => score
  let sig_lower := rustToLower cert.signature_algorithm
  let sig_penalty : ℕ :=
    if strContains sig_lower "sha1" then
      if strContains sig_lower "rsa" then 40 else 30
    else if strContains sig_lower "md5" then 50
    else if strContains sig_lower "sha256" then 0
    else if strContains sig_lower "sha384" || strContains sig_lower "sha512" then 0
    else 10
  score - sig_penalty

/-- `calculate_protocol_score` of `ssl_checker.rs` (lines 1572-1608). -/
def calculate_protocol_score (ssl_versions : List String) : ℕ :=
  let has_ssl2 := ssl_versions.contains "SSL 2.0"
  let has_ssl3 := ssl_versions.contains "SSL 3.0"
  let has_tls10 := ssl_versions.contains "TLS 1.0"
  let has_tls11 := ssl_versions.contains "TLS 1.1"
  let has_tls12 := ssl_versions.contains "TLS 1.2"
  let has_tls13 := ssl_versions.contains "TLS 1.3"
  let score : ℕ := 100
  let score := if has_ssl2 then 0 else if has_ssl3 then score - 80 else score
  let score := if has_tls10 then score - 20 else score
  let score := if has_tls11 then score - 10 else score
  let score := if has_tls13 then min 100 (score + 5) else score
  let score := if !has_tls12 && !has_tls13 then score - 50 else score
  score

/-- `calculate_key_exchange_score` of `ssl_checker.rs` (lines 1610-1636). -/
def calculate_key_exchange_score (cipher_suites : List CipherSuite) : ℕ :=
  let has_dhe := cipher_suites.any (fun cs => strContains cs.name "DHE")
  let has_ecdhe := cipher_suites.any (fun cs => strContains cs.name "ECDHE")
  let has_rsa_key_exchange := cipher_suites.any (fun cs =>
    strContains cs.name "TLS_RSA_"
      || (strContains cs.name "RSA" && !strContains cs.name "ECDHE"
            && !strContains cs.name "DHE"))
  let score : ℕ := 100
  let score := if !has_dhe && !has_ecdhe then score - 40 else score
  let score := if has_rsa_key_exchange then score - 20 else score
  let score := if has_ecdhe then min 100 (score + 5) else score
  score

/-- `calculate_cipher_strength_score` of `ssl_checker.rs` (lines 1638-1672);
the percentage penalties are computed in `f32` exactly as in the source. -/
def calculate_cipher_strength_score (cipher_suites : List CipherSuite) : ℕ :=
  if cipher_suites.isEmpty then 0
  else
    let weak_count := (cipher_suites.filter (fun cs => cs.strength == "WEAK")).length
    let medium_count := (cipher_suites.filter (fun cs => cs.strength == "MEDIUM")).length
    let high_count := (cipher_suites.filter (fun cs => cs.strength == "HIGH")).length
    let total_count := cipher_suites.length
    let weak_penalty :=
      (F32.mul (F32.div (f32ofNat weak_count) (f32ofNat total_count)) (f32ofNat 60)).toU32
    let medium_penalty :=
      (F32.mul (F32.div (f32ofNat medium_count) (f32ofNat total_count)) (f32ofNat 20)).toU32
    let score : ℕ := 100 - weak_penalty - medium_penalty
    if 0 < high_count then
      let high_bonus :=
        min 10 ((F32.mul (F32.div (f32ofNat high_count) (f32ofNat total_count)) (f32ofNat 10)).toU32)
      min 100 (score + high_bonus)
    else score

/-- `SecurityVulnerability` of `ssl_checker.rs`.  The display-only fields
`description`, `affected_components`, `remediation` and `references` (fixed
strings never read by any computation) are omitted from the model. -/
structure SecurityVulnerability where
  cve_id : String
  name : String
  severity : String
  affected : Bool
deriving DecidableEq, Repr

/-- `detect_cve_vulnerabilities` of `ssl_checker.rs` (lines 1124-1422): the
fixed ordered rule catalog.  Each conditional `push` is modelled by an
`if`-guarded singleton in an append chain, preserving order. -/
def detect_cve_vulnerabilities (cert : SslCertificate) (ssl_versions : List String)
    (cipher_suites : List CipherSuite) : List SecurityVulnerability :=
  let heartbleed_affected :=
    (ssl_versions.contains "TLS 1.1" || ssl_versions.contains "TLS 1.2")
      && !ssl_versions.contains "TLS 1.3"
  let poodle_ssl3_affected := ssl_versions.contains "SSL 3.0"
  let poodle_tls_affected :=
    ssl_versions.contains "TLS 1.0"
      && cipher_suites.any (fun c => strContains c.name "CBC")
  let beast_affected :=
    ssl_versions.contains "TLS 1.0"
      && cipher_suites.any (fun c => strContains c.name "CBC")
  let crime_affected := cipher_suites.any (fun c =>
    strContains (rustToLower c.name) "deflate" || strContains (rustToLower c.name) "compress")
  let freak_affected := cipher_suites.any (fun c =>
    strContains (rustToUpper c.name) "EXPORT" || strContains (rustToUpper c.name) "RSA_EXPORT")
  let logjam_affected := cipher_suites.any (fun c =>
    strContains (rustToUpper c.name) "EXPORT"
      || (strContains (rustToUpper c.name) "DHE" && strContains (rustToUpper c.name) "EXPORT"))
  let drown_affected := ssl_versions.contains "SSL 2.0"
  let sweet32_affected := cipher_suites.any (fun c =>
    strContains (rustToUpper c.name) "3DES" || strContains (rustToUpper c.name) "DES")
  let rc4_affected := cipher_suites.any (fun c => strContains (rustToUpper c.name) "RC4")
  let weak_key_affected :=
    match cert.key_size with
    | some key_size =>
      if cert.public_key_algorithm = "RSA" then decide (key_size < 2048)
      else if cert.public_key_algorithm = "EC" ∨ cert.public_key_algorithm = "ECDSA" then
        decide (key_size < 256)
      else false
    | none => false
  [⟨"CVE-2014-0160", "Heartbleed", "CRITICAL", heartbleed_affected⟩]
    ++ (if poodle_ssl3_affected || poodle_tls_affected then
          [⟨"CVE-2014-3566", "POODLE", if poodle_ssl3_affected then "HIGH" else "MEDIUM", true⟩]
        else [])
    ++ (if beast_affected then [⟨"CVE-2011-3389", "BEAST", "MEDIUM", true⟩] else [])
    ++ (if crime_affected then [⟨"CVE-2012-4929", "CRIME", "HIGH", true⟩] else [])
    ++ (if freak_affected then [⟨"CVE-2015-0204", "FREAK", "HIGH", true⟩] else [])
    ++ (if logjam_affected then [⟨"CVE-2015-4000", "Logjam", "HIGH", true⟩] else [])
    ++ (if drown_affected then [⟨"CVE-2016-0800", "DROWN", "CRITICAL", true⟩] else [])
    ++ (if sweet32_affected then [⟨"CVE-2016-2183", "Sweet32", "MEDIUM", true⟩] else [])
    ++ (if rc4_affected then [⟨"CVE-2013-2566", "RC4 NOMORE", "HIGH", true⟩] else [])
    ++ (if weak_key_affected then
          [⟨"WEAK-KEY-SIZE", "弱密钥长度",
            if cert.key_size.getD 0 < 1024 then "CRITICAL" else "HIGH", true⟩]
        else [])
    ++ (if ssl_versions.contains "SSL 2.0" && !drown_affected then
          [⟨"DEPRECATED-SSL2", "过时的 SSL 2.0 协议", "CRITICAL", true⟩]
        else [])
    ++ (if ssl_versions.contains "SSL 3.0" && !poodle_ssl3_affected then
          [⟨"DEPRECATED-SSL3", "过时的 SSL 3.0 协议", "HIGH", true⟩]
        else [])
    ++ (if ssl_versions.contains "TLS 1.0" && !beast_affected && !poodle_tls_affected then
          [⟨"WEAK-TLS10", "弱 TLS 1.0 协议", "MEDIUM", true⟩]
        else [])
    ++ (if ssl_versions.contains "TLS 1.1" then
          [⟨"WEAK-TLS11", "弱 TLS 1.1 协议", "LOW", true⟩]
        else [])

/-- `SslLabsRating` of `ssl_checker.rs`. -/
structure SslLabsRating where
  grade : String
  score : ℕ
  has_warnings : Bool
  has_errors : Bool
  certificate_score : ℕ
  protocol_score : ℕ
  key_exchange_score : ℕ
  cipher_strength_score : ℕ
  details : String
deriving DecidableEq, Repr

/-- `calculate_ssl_grade` of `ssl_checker.rs` (lines 1674-1706).  The Rust
`match (score, has_errors, has_warnings)` is translated arm for arm. -/
def calculate_ssl_grade (score : ℕ) (has_errors has_warnings : Bool)
    (ssl_versions : List String) (now : ℤ) (cert : SslCertificate) : String :=
  if ssl_versions.contains "SSL 2.0" then "F"
  else
    let expired : Bool :=
      match cert.valid_to with
      | some vt => decide (days_until_expiry now vt < 0)
      | none => false
    if expired then "F"
    else if has_errors then "F"
    else if 95 ≤ score ∧ score ≤ 100 ∧ has_warnings = false then "A+"
    else if 90 ≤ score ∧ score ≤ 94 ∧ has_warnings = false then "A"
    else if 80 ≤ score ∧ score ≤ 89 then "A-"
    else if 70 ≤ score ∧ score ≤ 79 then "B"
    else if 60 ≤ score ∧ score ≤ 69 then "C"
    else if 50 ≤ score ∧ score ≤ 59 then "D"
    else "F"

/-- `calculate_ssl_labs_rating` of `ssl_checker.rs` (lines 1437-1509); the
30/30/30/10 weighting is computed in `f32` exactly as in the source. -/
def calculate_ssl_labs_rating (now : ℤ) (cert : SslCertificate)
    (ssl_versions : List String) (cipher_suites : List CipherSuite)
    (cve_vulnerabilities : List SecurityVulnerability) : SslLabsRating :=
  let certificate_score := calculate_certificate_score now cert
  let protocol_score := calculate_protocol_score ssl_versions
  let key_exchange_score := calculate_key_exchange_score cipher_suites
  let cipher_strength_score := calculate_cipher_strength_score cipher_suites
  let weighted_score :=
    (F32.add
      (F32.add
        (F32.add (F32.mul (f32ofNat certificate_score) lit030)
          (F32.mul (f32ofNat protocol_score) lit030))
        (F32.mul (f32ofNat key_exchange_score) lit030))
      (F32.mul (f32ofNat cipher_strength_score) lit010)).toU32
  let critical_count :=
    (cve_vulnerabilities.filter (fun v => v.affected && v.severity == "CRITICAL")).length
  let high_count :=
    (cve_vulnerabilities.filter (fun v => v.affected && v.severity == "HIGH")).length
  let medium_count :=
    (cve_vulnerabilities.filter (fun v => v.affected && v.severity == "MEDIUM")).length
  let final_score := weighted_score - critical_count * 30 - high_count * 20 - medium_count * 10
  let has_errors := 0 < critical_count || protocol_score < 20 || certificate_score < 20
  let has_warnings :=
    0 < high_count || 2 < medium_count || protocol_score < 50 || cipher_strength_score < 50
  let details :=
    (if has_errors then ["存在严重安全问题"] else [])
      ++ (if has_warnings then ["存在安全警告"] else [])
  let details_text := if details.isEmpty then "配置良好" else String.intercalate ", " details
  let grade := calculate_ssl_grade final_score has_errors has_warnings ssl_versions now cert
  { grade := grade
    score := final_score
    has_warnings := has_warnings
    has_errors := has_errors
    certificate_score := certificate_score
    protocol_score := protocol_score
    key_exchange_score := key_exchange_score
    cipher_strength_score := cipher_strength_score
    details := details_text }

/-- `(n as u16).to_be_bytes()`. -/
def be16 (n : ℕ) : List ℕ := [n / 256 % 256, n % 256]

/-- `create_sni_extension` of `ssl_checker.rs` (lines 572-588); the hostname
is modelled by its UTF-8 byte list (`server_name.len()` is a byte count). -/
def create_sni_extension (server_name : List ℕ) : List ℕ :=
  be16 (server_name.length + 3) ++ [0x00] ++ be16 server_name.length ++ server_name

/-- `create_client_hello` of `ssl_checker.rs` (lines 495-570), with the same
placeholder-then-backpatch construction (`length_pos = 3`,
`handshake_length_pos = 6`); the 3-byte handshake length takes bytes 1..3 of
`(len as u32).to_be_bytes()` and the record length is `(len as u16)`
big-endian, as in the source. -/
def create_client_hello (server_name : List ℕ) (major_version minor_version : ℕ) : List ℕ :=
  let hello : List ℕ := [0x16, major_version, minor_version]
  let length_pos := hello.length
  let hello := hello ++ [0x00, 0x00]
  let hello := hello ++ [0x01]
  let handshake_length_pos := hello.length
  let hello := hello ++ [0x00, 0x00, 0x00]
  let hello := hello ++ [major_version, minor_version]
  let hello := hello ++ List.replicate 32 0x01
  let hello := hello ++ [0x00]
  let cipher_suites : List ℕ :=
    if major_version = 3 ∧ minor_version = 1 then [0x00, 0x2F]
    else if major_version = 3 ∧ minor_version = 2 then [0x00, 0x35]
    else [0x00, 0x2F, 0x00, 0x35]
  let hello := hello ++ [0x00, cipher_suites.length % 256] ++ cipher_suites
  let hello := hello ++ [0x01, 0x00]
  let extensions : List ℕ :=
    if server_name.isEmpty then []
    else
      let sni_data := create_sni_extension server_name
      [0x00, 0x00] ++ be16 sni_data.length ++ sni_data
  let hello :=
    if extensions.isEmpty then hello else hello ++ be16 extensions.length ++ extensions
  let handshake_length := hello.length - handshake_length_pos - 3
  let hello :=
    ((hello.set handshake_length_pos (handshake_length / 65536 % 256)).set
        (handshake_length_pos + 1) (handshake_length / 256 % 256)).set
      (handshake_length_pos + 2) (handshake_length % 256)
  let record_length := hello.length - length_pos - 2
  let hello :=
    (hello.set length_pos (record_length / 256 % 256)).set (length_pos + 1) (record_length % 256)
  hello

/-- Outcome of the bounded raw-socket read in
`check_tls_version_with_raw_socket`: a successful read of the given bytes
(possibly none), or a read error / timeout. -/
inductive ReadOutcome where
  | bytes (data : List ℕ)
  | failed
deriving DecidableEq, Repr

/-- Oracle for the network side of one raw-socket probe. -/
structure RawProbeEnv where
  tcp_connect_ok : Bool
  write_ok : Bool
  response : ReadOutcome
deriving DecidableEq, Repr

/-- `check_tls_version_with_raw_socket` of `ssl_checker.rs` (lines 427-493).
The 1024-byte zero-initialized read buffer is modelled by `data.getD · 0`. -/
def check_tls_version_with_raw_socket (protocol_name : String) (env : RawProbeEnv) :
    Except String Bool :=
  let vers : Option (ℕ × ℕ) :=
    if protocol_name = "TLS 1.0" then some (3, 1)
    else if protocol_name = "TLS 1.1" then some (3, 2)
    else if protocol_name = "TLS 1.2" then some (3, 3)
    else if protocol_name = "TLS 1.3" then some (3, 4)
    else none
  match vers with
  | none => .ok false
  | some (major_version, minor_version) =>
    if !env.tcp_connect_ok then .ok false
    else if !env.write_ok then .ok false
    else
      match env.response with
      | .bytes data =>
        if 0 < data.length then
          let buffer := fun i => data.getD i 0
          if buffer 0 = 0x16 ∧ buffer 5 = 0x02 then
            let server_major := buffer 9
            let server_minor := buffer 10
            .ok (decide ((server_major = major_version ∧ minor_version ≤ server_minor)
                  ∨ major_version < server_major))
          else if buffer 0 = 0x15 then .ok false
          else .ok false
        else .ok false
      | .failed => .ok false

/-- `check_legacy_protocol_support` of `ssl_checker.rs` (lines 403-425):
SSL 2.0/3.0 are unsupported by policy, TLS 1.0/1.1 go through the raw-socket
probe, anything else is unsupported. -/
def check_legacy_protocol_support (protocol_name : String) (env : RawProbeEnv) :
    Except String Bool :=
  if protocol_name = "SSL 2.0" ∨ protocol_name = "SSL 3.0" then .ok false
  else if protocol_name = "TLS 1.0" ∨ protocol_name = "TLS 1.1" then
    check_tls_version_with_raw_socket protocol_name env
  else .ok false

/-- `CertificateChainNode` of `ssl_checker.rs`. -/
structure CertificateChainNode where
  certificate : SslCertificate
  is_root : Bool
  is_leaf : Bool
  trust_status : String
  validation_errors : List String
deriving DecidableEq, Repr, Inhabited

/-- `CertificateChain` of `ssl_checker.rs`. -/
structure CertificateChain where
  certificates : List CertificateChainNode
  chain_length : ℕ
  is_complete : Bool
  root_ca_info : Option String
  chain_validation_status : String
  chain_errors : List String
deriving DecidableEq, Repr

/-- One step of the indexed certificate loop of `build_certificate_chain`
(`ssl_checker.rs` lines 924-988).  `n` is the input length; a parse success
appends a node whose flags depend only on the input index, a parse failure
appends a chain error. -/
def chain_node (now : ℤ) (n : ℕ) (index : ℕ) (cert : SslCertificate) :
    CertificateChainNode :=
  let is_leaf := index = 0
  let is_root := index = n - 1
  let trust_status :=
    if is_leaf then "end-entity"
    else if is_root ∧ cert.subject = cert.issuer then "self-signed"
    else if is_root then "root-ca"
    else "intermediate"
  let validation_errors :=
    (match cert.valid_to with
      | some vt => if vt < now then ["证书已过期"] else []
      | none => [])
      ++ (match cert.valid_from with
          | some vf => if now < vf then ["证书尚未生效"] else []
          | none => [])
      ++ (if strContains (rustToLower cert.signature_algorithm) "sha1" then
            ["使用已弃用的SHA-1签名算法"]
          else [])
      ++ (if cert.public_key_algorithm = "RSA" then
            match cert.key_size with
            | some ks => if ks < 2048 then ["RSA密钥长度过短: " ++ toString ks ++ " 位"] else []
            | none => []
          else [])
  ⟨cert, is_root, is_leaf, trust_status, validation_errors⟩

def chain_node_step (now : ℤ) (n : ℕ)
    (acc : List CertificateChainNode × List String)
    (p : ℕ × Except String SslCertificate) :
    List CertificateChainNode × List String :=
  match p.2 with
  | .ok cert => (acc.1 ++ [chain_node now n p.1 cert], acc.2)
  | .error e =>
    (acc.1, acc.2 ++ ["解析证书 " ++ toString (p.1 + 1) ++ " 时出错: " ++ e])

/-- `build_certificate_chain` of `ssl_checker.rs` (lines 916-1040); the input
DER list is modelled by the `parse_certificate` outcome of each element.
The `0..certificates.len()-1` continuity loop panics in Rust when every
certificate fails to parse; that case is unreachable from the caller (the
chain always contains the already-parsed leaf) and the model makes the loop
empty there. -/
def build_certificate_chain (now : ℤ)
    (cert_chain_ders : List (Except String SslCertificate)) :
    Except String CertificateChain :=
  if cert_chain_ders.isEmpty then .error "No certificates in chain"
  else
    let n := cert_chain_ders.length
    let built := cert_chain_ders.enum.foldl (chain_node_step now n) ([], [])
    let certificates := built.1
    let chain_errors := built.2
    let chain_errors := chain_errors ++
      (List.range (certificates.length - 1)).filterMap (fun i =>
        match certificates[i]?, certificates[i + 1]? with
        | some c, some nx =>
          if c.certificate.issuer ≠ nx.certificate.subject then
            some ("证书链中断: 证书 " ++ toString (i + 1) ++ " 的颁发者与证书 "
              ++ toString (i + 2) ++ " 的主体不匹配")
          else none
        | _, _ => none)
    let is_complete :=
      match certificates.getLast? with
      | some last => last.certificate.subject == last.certificate.issuer
      | none => false
    let chain_validation_status :=
      if chain_errors.isEmpty ∧ certificates.all (fun c => c.validation_errors.isEmpty) then
        "valid"
      else if chain_errors.isEmpty then "valid-with-warnings"
      else "invalid"
    let root_ca_info := certificates.getLast?.map (fun c =>
      c.certificate.subject ++ " ("
        ++ (if c.certificate.subject = c.certificate.issuer then "自签名" else "根CA") ++ ")")
    .ok ⟨certificates, n, is_complete, root_ca_info, chain_validation_status, chain_errors⟩

/-- `analyze_security` of `ssl_checker.rs` (lines 1708-1860): the legacy
70/30 score (computed in `f32` exactly as in the source) plus the free-text
vulnerability and recommendation lists, translated push for push. -/
def analyze_security (now : ℤ) (cert : SslCertificate) (cipher_suites : List CipherSuite) :
    ℕ × List String × List String :=
  let certificate_score := calculate_certificate_score now cert
  let cipher_strength_score := calculate_cipher_strength_score cipher_suites
  let score :=
    (F32.add (F32.mul (f32ofNat certificate_score) lit070)
      (F32.mul (f32ofNat cipher_strength_score) lit030)).toU32
  let expiryVulns : List String × List String :=
    match cert.valid_to with
    | some vt =>
      if days_until_expiry now vt < 0 then
        (["证书已过期"], ["立即更新证书，考虑使用自动化证书管理工具如 Let\x27s Encrypt certbot"])
      else if days_until_expiry now vt < 7 then
        (["证书将在一周内过期"], ["紧急更新证书，建议设置证书到期提醒"])
      else if days_until_expiry now vt < 30 then
        (["证书即将在30天内过期"],
          ["建议尽快更新证书，可以使用自动化工具如 Let\x27s Encrypt certbot 或云服务商的证书管理服务"])
      else ([], [])
    | none => ([], [])
  let keyVulns : List String × List String :=
    match cert.key_size with
    | some key_size =>
      if cert.public_key_algorithm = "RSA" then
        if key_size < 1024 then
          (["RSA密钥长度严重不足: " ++ toString key_size ++ " 位"],
            ["立即更换为至少2048位的RSA密钥或256位的ECC密钥"])
        else if key_size < 2048 then
          (["RSA密钥长度不足: " ++ toString key_size ++ " 位"],
            ["建议使用至少2048位的RSA密钥。生成命令：openssl genrsa -out private.key 2048"])
        else if key_size < 3072 then
          ([], ["考虑使用3072位或4096位RSA密钥以提高长期安全性"])
        else ([], [])
      else if cert.public_key_algorithm = "EC" ∨ cert.public_key_algorithm = "ECDSA" then
        if key_size < 256 then
          (["ECC密钥长度不足: " ++ toString key_size ++ " 位"],
            ["建议使用至少256位的ECC密钥（等效于2048位RSA）"])
        else if 384 ≤ key_size then
          ([], ["ECC密钥长度良好，提供了优秀的安全性和性能"])
        else ([], [])
      else ([], ["检查密钥算法和长度是否符合当前安全标准"])
    | none => ([], [])
  let sig_algo_lower := rustToLower cert.signature_algorithm
  let sigVulns : List String × List String :=
    if strContains sig_algo_lower "md5" then
      (["使用了已完全破解的MD5签名算法"], ["立即更换为SHA-256或更强的签名算法"])
    else if strContains sig_algo_lower "sha1" then
      (["使用了不安全的SHA-1签名算法"],
        ["建议使用SHA-256或更强的签名算法。配置示例：在证书请求中指定 -sha256 参数"])
    else if strContains sig_algo_lower "sha256" then
      ([], ["SHA-256签名算法良好，符合当前安全标准"])
    else ([], [])
  let weak_count := (cipher_suites.filter (fun cs => cs.strength == "WEAK")).length
  let high_count := (cipher_suites.filter (fun cs => cs.strength == "HIGH")).length
  let total_count := cipher_suites.length
  let weakVulns : List String × List String :=
    if 0 < weak_count then
      (["发现 " ++ toString weak_count ++ " 个弱加密套件"],
        ["禁用弱加密套件。推荐配置：ECDHE+AESGCM:ECDHE+CHACHA20:DHE+AESGCM:DHE+CHACHA20:!aNULL:!MD5:!DSS:!3DES:!RC4"])
    else ([], [])
  let pctVulns : List String × List String :=
    if 0 < total_count then
      let weak_percentage :=
        (F32.mul (F32.div (f32ofNat weak_count) (f32ofNat total_count)) (f32ofNat 100)).toU32
      let high_percentage :=
        (F32.mul (F32.div (f32ofNat high_count) (f32ofNat total_count)) (f32ofNat 100)).toU32
      ((if 25 < weak_percentage then [toString weak_percentage ++ "% 的加密套件为弱加密"] else []),
        (if high_percentage < 50 then
          ["增加高强度加密套件的比例，优先使用 AES-256-GCM、ChaCha20-Poly1305 等现代加密算法"]
        else []))
    else ([], [])
  let has_pfs := cipher_suites.any (fun cs =>
    strContains cs.name "ECDHE" || strContains cs.name "DHE")
  let pfsVulns : List String × List String :=
    if !has_pfs then
      (["缺乏完美前向保密支持"],
        ["配置支持完美前向保密(PFS)的加密套件，如 ECDHE-RSA-AES256-GCM-SHA384"])
    else ([], [])
  let scoreRec : List String :=
    if 90 ≤ score then ["SSL/TLS配置优秀，建议定期检查更新"]
    else if 70 ≤ score then ["SSL/TLS配置良好，仍有优化空间"]
    else if 50 ≤ score then ["SSL/TLS配置需要改进，存在安全风险"]
    else ["SSL/TLS配置存在严重安全风险，需要立即修复"]
  let generalRecs : List String :=
    ["启用 HSTS：Strict-Transport-Security: max-age=31536000; includeSubDomains; preload",
      "配置 OCSP Stapling 提高证书验证性能：ssl_stapling on; ssl_stapling_verify on;",
      "禁用过时协议：仅启用 TLS 1.2 和 TLS 1.3，禁用 SSL 2.0/3.0 和 TLS 1.0/1.1",
      "定期监控证书到期时间，建议使用证书监控服务或自动化续期",
      "考虑实施证书透明度(CT)日志监控，及时发现未授权证书签发"]
  let vulnerabilities :=
    expiryVulns.1 ++ keyVulns.1 ++ sigVulns.1 ++ weakVulns.1 ++ pctVulns.1 ++ pfsVulns.1
  let recommendations :=
    expiryVulns.2 ++ keyVulns.2 ++ sigVulns.2 ++ weakVulns.2 ++ pctVulns.2 ++ pfsVulns.2
      ++ scoreRec ++ generalRecs
  (score, vulnerabilities, recommendations)

/-- `ProtocolSupport` of `ssl_checker.rs`. -/
structure ProtocolSupport where
  version : String
  supported : Bool
  cipher_suites : List CipherSuite
  alpn_protocols : Option (List String)
  http2_support : Option Bool
  spdy_support : Option Bool
  http3_support : Option Bool
deriving DecidableEq, Repr

/-- `SslInfo` of `ssl_checker.rs`. -/
structure SslInfo where
  domain : String
  server_ip : Option String
  server_info : Option String
  certificate : Option SslCertificate
  certificate_chain : Option CertificateChain
  ssl_versions : Option (List String)
  cipher_suites : Option (List CipherSuite)
  protocol_support : Option (List ProtocolSupport)
  server_cipher_order : Option Bool
  security_score : Option ℕ
  ssl_labs_rating : Option SslLabsRating
  vulnerabilities : Option (List String)
  recommendations : Option (List String)
  cve_vulnerabilities : Option (List SecurityVulnerability)
  http2_support : Option Bool
  spdy_support : Option Bool
  http3_support : Option Bool
  alpn_protocols : Option (List String)
deriving DecidableEq, Repr

/-- Oracle for every network/library interaction performed by
`check_ssl_info`: each field carries the outcome of the corresponding helper
call.  `tls_connection` carries the outcome of `check_tls_connection`, whose
payload is the `parse_certificate` outcome of the leaf DER, the observed
cipher-suite list, and the `parse_certificate` outcome of each chain DER. -/
structure ScanEnv where
  now : ℤ
  resolve_ip : Except String String
  https_server_info : Option String
  server_info_443 : Option String
  server_info_80 : Option String
  tls_connection :
    Except String (Except String SslCertificate × List CipherSuite
      × List (Except String SslCertificate))
  protocol_support : Except String (List ProtocolSupport)
  server_cipher_order : Except String Bool
  http2 : Except String Bool
  spdy : Except String Bool
  http3 : Except String Bool
  alpn : Except String (List String)

/-- Rust `str::trim`, restricted to ASCII whitespace. -/
def rustTrim (s : String) : String :=
  let ws := fun c => c = ' ' ∨ c = '\t' ∨ c = '\n' ∨ c = '\r'
  String.mk (((s.data.dropWhile ws).reverse.dropWhile ws).reverse)

/-- The 15 optional result fields of `check_ssl_info` gathered in one tuple,
in source order. -/
def SslScanFields : Type :=
  Option SslCertificate × Option CertificateChain × Option (List String)
    × Option (List CipherSuite) × Option (List ProtocolSupport) × Option Bool
    × Option ℕ × Option SslLabsRating × Option (List String) × Option (List String)
    × Option (List SecurityVulnerability) × Option Bool × Option Bool × Option Bool
    × Option (List String)

/-- `check_ssl_info` of `ssl_checker.rs` (lines 1862-2020): trim/lower-case
the domain, reject the empty string, then degrade every probe failure into an
absent field of the returned record. -/
def check_ssl_info (domain : String) (env : ScanEnv) : Except String SslInfo :=
  let domain := rustToLower (rustTrim domain)
  if domain = "" then .error "域名不能为空"
  else
    let server_ip := match env.resolve_ip with | .ok ip => some ip | .error _ => none
    let server_info :=
      (env.https_server_info.orElse fun _ =>
        (env.server_info_443.orElse fun _ => env.server_info_80))
    let fields : SslScanFields :=
      match env.tls_connection with
      | .ok (cert_parse, cipher_suites, cert_chain_ders) =>
        match cert_parse with
        | .ok cert =>
          let analyzed := analyze_security env.now cert cipher_suites
          let certificate_chain :=
            match build_certificate_chain env.now cert_chain_ders with
            | .ok chain => some chain
            | .error _ => none
          let protocol_support :=
            match env.protocol_support with | .ok s => some s | .error _ => none
          let server_cipher_order :=
            match env.server_cipher_order with | .ok o => some o | .error _ => none
          let http2_support := match env.http2 with | .ok s => some s | .error _ => none
          let spdy_support := match env.spdy with | .ok s => some s | .error _ => none
          let http3_support := match env.http3 with | .ok s => some s | .error _ => none
          let alpn_protocols := match env.alpn with | .ok p => some p | .error _ => none
          let supported_versions :=
            match protocol_support with
            | some support => (support.filter (fun p => p.supported)).map (fun p => p.version)
            | none => ["TLS 1.2", "TLS 1.3"]
          let cve_vulnerabilities :=
            detect_cve_vulnerabilities cert supported_versions cipher_suites
          let ssl_labs_rating :=
            calculate_ssl_labs_rating env.now cert supported_versions cipher_suites
              cve_vulnerabilities
          (some cert, certificate_chain, some supported_versions, some cipher_suites,
            protocol_support, server_cipher_order, some analyzed.1, some ssl_labs_rating,
            some analyzed.2.1, some analyzed.2.2, some cve_vulnerabilities,
            http2_support, spdy_support, http3_support, alpn_protocols)
        | .error _ =>
          (none, none, none, none, none, none, none, none, none, none, none, none,
            none, none, none)
      | .error _ =>
        (none, none, none, none, none, none, none, none, none, none, none, none,
          none, none, none)
    let (certificate, certificate_chain, ssl_versions, cipher_suites, protocol_support,
      server_cipher_order, security_score, ssl_labs_rating, vulnerabilities,
      recommendations, cve_vulnerabilities, http2_support, spdy_support, http3_support,
      alpn_protocols) := fields
    .ok
      { domain := domain
        server_ip := server_ip
        server_info := server_info
        certificate := certificate
        certificate_chain := certificate_chain
        ssl_versions := ssl_versions
        cipher_suites := cipher_suites
        protocol_support := protocol_support
        server_cipher_order := server_cipher_order
        security_score := security_score
        ssl_labs_rating := ssl_labs_rating
        vulnerabilities := vulnerabilities
        recommendations := recommendations
        cve_vulnerabilities := cve_vulnerabilities
        http2_support := http2_support
        spdy_support := spdy_support
        http3_support := http3_support
        alpn_protocols := alpn_protocols }

end SslChecker

namespace CertificateViewer

/-- The subject/issuer name attributes consulted by the chain logic of
`certificate_viewer.rs`.  The source stores names as `HashMap<String,String>`
but only ever reads the keys `通用名称 (CN)`, `组织名称 (O)` and
`组织单位 (OU)`, always through `.get(..).unwrap_or(&empty)`, so an absent
key is indistinguishable from the empty string and each name is modelled by
these three strings. -/
structure NameInfo where
  cn : String
  o : String
  ou : String
deriving DecidableEq, Repr, Inhabited

/-- `CertificateInfo` of `certificate_viewer.rs`, restricted to the fields
read by `is_duplicate_certificate`, `deduplicate_certificates`,
`is_cert_self_signed`, `certificates_match_issuer_subject`,
`order_certificates_by_chain` and `build_certificate_chain` (the validity,
extension, SAN, type and brand fields are never consulted by them). -/
structure CertificateInfo where
  subject : NameInfo
  issuer : NameInfo
  serial_number : String
  chain_level : ℕ
  sha1_fingerprint : Option String
  sha256_fingerprint : Option String
deriving DecidableEq, Repr, Inhabited

/-- `is_duplicate_certificate` of `certificate_viewer.rs` (lines 68-89):
serial number first, then SHA-256 fingerprints when both present, then SHA-1
fingerprints when both present. -/
def is_duplicate_certificate (cert1 cert2 : CertificateInfo) : Bool :=
  if cert1.serial_number = cert2.serial_number then true
  else
    let sha256_match : Bool :=
      match cert1.sha256_fingerprint, cert2.sha256_fingerprint with
      | some fp1, some fp2 => fp1 == fp2
      | _, _ => false
    if sha256_match then true
    else
      let sha1_match : Bool :=
        match cert1.sha1_fingerprint, cert2.sha1_fingerprint with
        | some fp1, some fp2 => fp1 == fp2
        | _, _ => false
      if sha1_match then true else false

/-- `deduplicate_certificates` of `certificate_viewer.rs` (lines 92-107):
keep each certificate unless an already-kept one is a duplicate of it. -/
def deduplicate_certificates (certificates : List CertificateInfo) : List CertificateInfo :=
  certificates.foldl
    (fun deduped cert =>
      if deduped.any (fun existing => is_duplicate_certificate existing cert) then deduped
      else deduped ++ [cert])
    []

/-- `is_cert_self_signed` of `certificate_viewer.rs` (lines 1079-1090). -/
def is_cert_self_signed (cert : CertificateInfo) : Bool :=
  (!cert.subject.cn.isEmpty && cert.subject.cn == cert.issuer.cn)
    || (!cert.subject.o.isEmpty && cert.subject.o == cert.issuer.o)

/-- `certificates_match_issuer_subject` of `certificate_viewer.rs`
(lines 1093-1124): CN, then O, then OU; a field matches when it is non-empty
on both sides and equal. -/
def certificates_match_issuer_subject (subject issuer : NameInfo) : Bool :=
  (!subject.cn.isEmpty && !issuer.cn.isEmpty && subject.cn == issuer.cn)
    || (!subject.o.isEmpty && !issuer.o.isEmpty && subject.o == issuer.o)
    || (!subject.ou.isEmpty && !issuer.ou.isEmpty && subject.ou == issuer.ou)

/-- `remaining.iter().enumerate().find(p)` followed by
`remaining.remove(index)`: the first element satisfying `p` together with the
list it leaves behind. -/
def extractFirst (p : α → Bool) : List α → Option (α × List α)
  | [] => none
  | x :: xs =>
    if p x then some (x, xs)
    else (extractFirst p xs).map (fun r => (r.1, x :: r.2))

/-- `remaining.iter().enumerate().max_by_key(chain_level)` followed by
`remaining.remove(index)`.  Rust's `max_by_key` returns the **last** maximal
element, so a tie is resolved in favour of the later element. -/
def extractMaxLevelLast : List CertificateInfo → Option (CertificateInfo × List CertificateInfo)
  | [] => none
  | x :: xs =>
    match extractMaxLevelLast xs with
    | none => some (x, [])
    | some (m, rest) =>
      if x.chain_level ≤ m.chain_level then some (m, x :: rest) else some (x, xs)

/-- `remaining.iter().enumerate().min_by_key(chain_level)` followed by
`remaining.remove(index)`.  Rust's `min_by_key` returns the **first** minimal
element. -/
def extractMinLevelFirst : List CertificateInfo → Option (CertificateInfo × List CertificateInfo)
  | [] => none
  | x :: xs =>
    match extractMinLevelFirst xs with
    | none => some (x, [])
    | some (m, rest) =>
      if m.chain_level < x.chain_level then some (m, x :: rest) else some (x, xs)

theorem extractFirst_length {p : α → Bool} :
    ∀ {l : List α} {r}, extractFirst p l = some r → r.2.length + 1 = l.length := by
  intro l
  induction l with
  | nil => intro r h; simp [extractFirst] at h
  | cons x xs ih =>
    intro r h
    simp only [extractFirst] at h
    by_cases hp : p x
    · simp [hp] at h; subst h; simp
    · simp [hp] at h
      obtain ⟨a, b, hab, rfl⟩ := h
      have := ih hab
      simp at this ⊢
      omega

theorem extractMinLevelFirst_length :
    ∀ {l : List CertificateInfo} {r},
      extractMinLevelFirst l = some r → r.2.length + 1 = l.length := by
  intro l
  induction l with
  | nil => intro r h; simp [extractMinLevelFirst] at h
  | cons x xs ih =>
    intro r h
    simp only [extractMinLevelFirst] at h
    cases hx : extractMinLevelFirst xs with
    | none =>
      rw [hx] at h
      cases xs with
      | nil => simp at h; subst h; simp
      | cons y ys => simp [extractMinLevelFirst] at hx; cases hx' : extractMinLevelFirst ys <;> simp [hx'] at hx <;> split at hx <;> simp_all
    | some m =>
      obtain ⟨m1, rest1⟩ := m
      rw [hx] at h
      have hm := ih hx
      simp only at h hm
      split at h <;> (simp at h; subst h; simp at hm ⊢; try omega)

theorem extractMaxLevelLast_length :
    ∀ {l : List CertificateInfo} {r},
      extractMaxLevelLast l = some r → r.2.length + 1 = l.length := by
  intro l
  induction l with
  | nil => intro r h; simp [extractMaxLevelLast] at h
  | cons x xs ih =>
    intro r h
    simp only [extractMaxLevelLast] at h
    cases hx : extractMaxLevelLast xs with
    | none =>
      rw [hx] at h
      cases xs with
      | nil => simp at h; subst h; simp
      | cons y ys => simp [extractMaxLevelLast] at hx; cases hx' : extractMaxLevelLast ys <;> simp [hx'] at hx <;> split at hx <;> simp_all
    | some m =>
      obtain ⟨m1, rest1⟩ := m
      rw [hx] at h
      have hm := ih hx
      simp only at h hm
      split at h <;> (simp at h; subst h; simp at hm ⊢; try omega)

/-- The main walk of `order_certificates_by_chain` (`certificate_viewer.rs`
lines 1037-1061): starting from the chain head, repeatedly take the first
remaining certificate whose issuer matches the current certificate's subject,
falling back to the first remaining certificate of minimal chain level.  The
walk always consumes one element per round, so the source's trailing
append-by-ascending-level loop (lines 1064-1073) can only run on an empty
`remaining` and is not represented. -/
def chain_walk (current : CertificateInfo) (remaining : List CertificateInfo) :
    List CertificateInfo :=
  match hr : remaining with
  | [] => []
  | _ :: _ =>
    match hf : extractFirst
        (fun cert => certificates_match_issuer_subject current.subject cert.issuer) remaining with
    | some (next, rest) => next :: chain_walk next rest
    | none =>
      match hm : extractMinLevelFirst remaining with
      | some (lowest, rest) => lowest :: chain_walk lowest rest
      | none => []
termination_by remaining.length
decreasing_by
  · have := extractFirst_length hf; simp_all; try omega
  · have := extractMinLevelFirst_length hm; simp_all; try omega

/-- `order_certificates_by_chain` of `certificate_viewer.rs`
(lines 1010-1076): seed with the first self-signed certificate if any, else
with the (last) certificate of maximal chain level, then walk. -/
def order_certificates_by_chain (certificates : List CertificateInfo) :
    List CertificateInfo :=
  match extractFirst is_cert_self_signed certificates with
  | some (root, rest) => root :: chain_walk root rest
  | none =>
    match extractMaxLevelLast certificates with
    | some (highest, rest) => highest :: chain_walk highest rest
    | none => []

/-- `build_certificate_chain` of `certificate_viewer.rs` (lines 865-882).
The fallback `sort_by` descending on `chain_level` is Rust's stable sort. -/
def build_certificate_chain (cert_infos : List CertificateInfo) : List CertificateInfo :=
  if cert_infos.length ≤ 1 then cert_infos
  else
    let ordered := order_certificates_by_chain cert_infos
    if !ordered.isEmpty then ordered
    else (cert_infos.mergeSort (fun a b => b.chain_level ≤ a.chain_level))

/-- The Chain Reconstructor entry sequence of `certificate_viewer.rs`:
`deduplicate_certificates` (line 162/241) followed by the chain ordering of
`analyze_certificate_chain`/`build_certificate_chain` (lines 771, 865-882). -/
def reconstruct_chain (certificates : List CertificateInfo) : List CertificateInfo :=
  build_certificate_chain (deduplicate_certificates certificates)

end CertificateViewer

/-! ## Claim-side (specification) definitions

Each definition below is written from the words of a claim of the
specification, to be compared with the corresponding definition translated
from the source. -/

namespace CertificateViewer

/-- The issuer/subject matcher as the specification words it: CN first, then
O, then OU, where the first field that is non-empty on both sides and equal
decides the match. -/
def matchesIssuerSubjectSpecified (subject issuer : NameInfo) : Bool :=
  if !subject.cn.isEmpty && !issuer.cn.isEmpty && subject.cn == issuer.cn then true
  else if !subject.o.isEmpty && !issuer.o.isEmpty && subject.o == issuer.o then true
  else if !subject.ou.isEmpty && !issuer.ou.isEmpty && subject.ou == issuer.ou then true
  else false

/-- The adjacency property claim C7 asserts of consecutive output positions:
the next certificate is an issuer match for the current one, or no later
certificate matches and the next one has minimal chain level among the later
ones (the later entries of the output are exactly the certificates that were
still remaining at that point of the walk). -/
def chainStepOk (out : List CertificateInfo) (i : ℕ) : Prop :=
  certificates_match_issuer_subject (out.getD i default).subject
      (out.getD (i + 1) default).issuer = true
    ∨ ((∀ y ∈ out.drop (i + 1),
          certificates_match_issuer_subject (out.getD i default).subject y.issuer = false)
        ∧ ∀ y ∈ out.drop (i + 1), (out.getD (i + 1) default).chain_level ≤ y.chain_level)

/-- A self-signed root for the C7 witness. -/
def demoC7Root : CertificateInfo :=
  { subject := ⟨"Demo Root CA", "Demo Org", ""⟩
    issuer := ⟨"Demo Root CA", "Demo Org", ""⟩
    serial_number := "01"
    chain_level := 1
    sha1_fingerprint := none
    sha256_fingerprint := none }

/-- A leaf issued by `demoC7Root` for the C7 witness. -/
def demoC7Leaf : CertificateInfo :=
  { subject := ⟨"demo.example.com", "", ""⟩
    issuer := ⟨"Demo Root CA", "Demo Org", ""⟩
    serial_number := "02"
    chain_level := 0
    sha1_fingerprint := none
    sha256_fingerprint := none }

/-- C8 counterexample input: shares its serial number with `demoC8DupY`. -/
def demoC8DupX : CertificateInfo :=
  { subject := ⟨"Dup X", "", ""⟩
    issuer := ⟨"Dup X", "", ""⟩
    serial_number := "0a"
    chain_level := 0
    sha1_fingerprint := none
    sha256_fingerprint := none }

/-- C8 counterexample input: shares its serial number with `demoC8DupX`. -/
def demoC8DupY : CertificateInfo :=
  { subject := ⟨"Dup Y", "", ""⟩
    issuer := ⟨"Dup Y", "", ""⟩
    serial_number := "0a"
    chain_level := 0
    sha1_fingerprint := none
    sha256_fingerprint := none }

/-- A self-signed root for the C8 witness. -/
def demoC8NdRoot : CertificateInfo :=
  { subject := ⟨"C8 Root CA", "C8 Org", ""⟩
    issuer := ⟨"C8 Root CA", "C8 Org", ""⟩
    serial_number := "11"
    chain_level := 1
    sha1_fingerprint := none
    sha256_fingerprint := none }

/-- A leaf issued by `demoC8NdRoot`, not a duplicate of it. -/
def demoC8NdLeaf : CertificateInfo :=
  { subject := ⟨"c8.example.com", "", ""⟩
    issuer := ⟨"C8 Root CA", "C8 Org", ""⟩
    serial_number := "12"
    chain_level := 0
    sha1_fingerprint := none
    sha256_fingerprint := none }

end CertificateViewer

namespace SslChecker

/-- The weak-cipher markers named by claim C4 (substrings of the lower-cased
name): null/anonymous/export, DES without 3DES, RC4, MD5. -/
def hasWeakMarker (cipher_name : String) : Bool :=
  let c := rustToLower cipher_name
  strContains c "null" || strContains c "anon" || strContains c "export"
    || (strContains c "des" && !strContains c "3des")
    || strContains c "rc4" || strContains c "md5"

/-- The medium-tier markers exactly as claim C4 words them: 3DES, AES-128
**without GCM**, Camellia-128. -/
def hasMediumMarkerClaimed (cipher_name : String) : Bool :=
  let c := rustToLower cipher_name
  strContains c "3des" || (strContains c "aes128" && !strContains c "gcm")
    || strContains c "camellia128"

/-- The medium-tier markers as the code actually checks them: 3DES, AES-128
(regardless of GCM), Camellia-128. -/
def hasMediumMarker (cipher_name : String) : Bool :=
  let c := rustToLower cipher_name
  strContains c "3des" || strContains c "aes128" || strContains c "camellia128"

/-- The high-tier markers of claim C4: AES-256, ChaCha20, GCM, Poly1305. -/
def hasHighMarker (cipher_name : String) : Bool :=
  let c := rustToLower cipher_name
  strContains c "aes256" || strContains c "chacha20" || strContains c "gcm"
    || strContains c "poly1305"

/-- The protocol sub-score as the amended claim C3 words it, step by step:
start at 100; SSL 2.0 present sets the score to 0; SSL 3.0 present subtracts
80; TLS 1.0 subtracts 20; TLS 1.1 subtracts 10; TLS 1.3 adds 5 capped at
100; a further 50 is subtracted when neither TLS 1.2 nor TLS 1.3 is
supported; subtractions saturate at 0. -/
def protocolScoreSpecified (ssl_versions : List String) : ℕ :=
  let s : ℕ := 100
  let s := if ssl_versions.contains "SSL 2.0" then 0 else s
  let s := if ssl_versions.contains "SSL 3.0" then s - 80 else s
  let s := if ssl_versions.contains "TLS 1.0" then s - 20 else s
  let s := if ssl_versions.contains "TLS 1.1" then s - 10 else s
  let s := if ssl_versions.contains "TLS 1.3" then min 100 (s + 5) else s
  if !ssl_versions.contains "TLS 1.2" && !ssl_versions.contains "TLS 1.3" then s - 50 else s

/-- The response classification of claim C5: a reply is supported exactly
when byte 0 is 0x16, byte 5 is 0x02, and the version embedded in bytes 9-10
is lexicographically at least the requested `(major, minor)`; an empty read
or a read failure/timeout is unsupported. -/
def serverResponseSupportedSpecified (major minor : ℕ) (r : ReadOutcome) : Bool :=
  match r with
  | .bytes data =>
    decide (data ≠ [] ∧ data.getD 0 0 = 0x16 ∧ data.getD 5 0 = 0x02 ∧
      (major < data.getD 9 0 ∨ (data.getD 9 0 = major ∧ minor ≤ data.getD 10 0)))
  | .failed => false

/-- `(n as u32).to_be_bytes()` bytes 1..3 (the 3-byte handshake length). -/
def be24 (n : ℕ) : List ℕ := [n / 65536 % 256, n / 256 % 256, n % 256]

/-- The ClientHello layout as the amended claim C6 words it: a record header
(0x16, major, minor) whose 2-byte length field holds the number of bytes
after the record header; a handshake header (0x01) whose 3-byte length field
holds the number of bytes after the handshake header; then protocol version,
32 bytes of 0x01 random, a zero-length session id, a version-appropriate
cipher-suite list of exactly **one** suite for TLS 1.0/1.1, a single null
compression method, and, for a non-empty hostname, a server-name extension
block carrying the hostname. -/
def clientHelloSpecified (server_name : List ℕ) (major_version minor_version : ℕ) : List ℕ :=
  let cipher_suites : List ℕ :=
    if major_version = 3 ∧ minor_version = 1 then [0x00, 0x2F]
    else if major_version = 3 ∧ minor_version = 2 then [0x00, 0x35]
    else [0x00, 0x2F, 0x00, 0x35]
  let sni_data :=
    be16 (server_name.length + 3) ++ [0x00] ++ be16 server_name.length ++ server_name
  let ext_data := [0x00, 0x00] ++ be16 sni_data.length ++ sni_data
  let ext_block :=
    if server_name.isEmpty then [] else be16 ext_data.length ++ ext_data
  let body :=
    [major_version, minor_version] ++ List.replicate 32 0x01 ++ [0x00]
      ++ [0x00, cipher_suites.length % 256] ++ cipher_suites ++ [0x01, 0x00] ++ ext_block
  let handshake := [0x01] ++ be24 body.length ++ body
  [0x16, major_version, minor_version] ++ be16 handshake.length ++ handshake

/-- "An affected vulnerability of this severity fired", as the claims word
it. -/
def hasAffectedOfSeverity (vulns : List SecurityVulnerability) (sev : String) : Bool :=
  vulns.any (fun v => v.affected && v.severity == sev)

/-- The number of affected vulnerabilities of a severity. -/
def countAffectedOfSeverity (vulns : List SecurityVulnerability) (sev : String) : ℕ :=
  (vulns.filter (fun v => v.affected && v.severity == sev)).length

/-- The letter grade as the amended claim C1 words it, computed from the same
scan facts: F whenever SSL 2.0 is supported, the certificate is expired, or
`has_errors` holds (an affected CRITICAL vulnerability fired, or the protocol
or certificate sub-score is below 20); otherwise A+ for a composite score of
95-100 and A for 90-94 — each only without warnings (an affected HIGH
vulnerability, more than two affected MEDIUMs, protocol sub-score below 50,
or cipher-strength sub-score below 50), warnings turning both into F —
then A- for 80-89, B for 70-79, C for 60-69, D for 50-59, and F otherwise. -/
def sslGradeSpecified (now : ℤ) (cert : SslCertificate) (ssl_versions : List String)
    (cipher_suites : List CipherSuite) (vulns : List SecurityVulnerability) : String :=
  let protocol_score := calculate_protocol_score ssl_versions
  let certificate_score := calculate_certificate_score now cert
  let cipher_strength_score := calculate_cipher_strength_score cipher_suites
  let errorsCond := hasAffectedOfSeverity vulns "CRITICAL"
    || decide (protocol_score < 20) || decide (certificate_score < 20)
  let warnCond := hasAffectedOfSeverity vulns "HIGH"
    || decide (2 < countAffectedOfSeverity vulns "MEDIUM")
    || decide (protocol_score < 50) || decide (cipher_strength_score < 50)
  let expired : Bool :=
    match cert.valid_to with
    | some vt => decide (days_until_expiry now vt < 0)
    | none => false
  let score := (calculate_ssl_labs_rating now cert ssl_versions cipher_suites vulns).score
  if ssl_versions.contains "SSL 2.0" || expired || errorsCond then "F"
  else if 95 ≤ score ∧ score ≤ 100 ∧ warnCond = false then "A+"
  else if 90 ≤ score ∧ score ≤ 94 ∧ warnCond = false then "A"
  else if 80 ≤ score ∧ score ≤ 89 then "A-"
  else if 70 ≤ score ∧ score ≤ 79 then "B"
  else if 60 ≤ score ∧ score ≤ 69 then "C"
  else if 50 ≤ score ∧ score ≤ 59 then "D"
  else "F"

/-- A well-configured certificate used by the grade counterexample: SHA-256
signature, no key-size data, no parseable expiry. -/
def demoCert : SslCertificate :=
  { subject := "CN=demo", issuer := "CN=DemoCA", valid_from := none, valid_to := none,
    fingerprint := "", serial_number := "01", signature_algorithm := "SHA256-with-RSA",
    public_key_algorithm := "RSA", key_size := none, san_domains := none }

/-- A WEAK cipher suite whose name contains "ECDHE" (full key-exchange score)
and "null" (classified WEAK), and which triggers no CVE rule. -/
def demoWeakSuite : CipherSuite :=
  { name := "ECDHE-NULL-A", version := "TLS 1.2", strength := "WEAK", server_order := false }

/-- A scan environment in which every network probe fails. -/
def demoFailingEnv : ScanEnv :=
  { now := 0
    resolve_ip := .error "DNS resolution failed"
    https_server_info := none
    server_info_443 := none
    server_info_80 := none
    tls_connection := .error "TCP connection failed"
    protocol_support := .error "no connection"
    server_cipher_order := .error "no connection"
    http2 := .error "no connection"
    spdy := .error "no connection"
    http3 := .error "no connection"
    alpn := .error "no connection" }

end SslChecker

/-! ## Theorems settling the claims -/

namespace SslChecker

/-- A member of a guarded singleton is that element. -/
theorem mem_of_ite_singleton {c : Prop} [Decidable c] {x v : α}
    (h : v ∈ (if c then [x] else [])) : v = x := by
  split at h <;> simp_all

/-- `0 < (l.filter p).length` decided, as a Bool, is `l.any p`. -/
theorem filterLengthPos_eq_any (l : List α) (p : α → Bool) :
    (decide (0 < (l.filter p).length)) = l.any p := by
  cases hany : l.any p
  · have hnil : l.filter p = [] := by
      rw [List.filter_eq_nil_iff]
      intro a ha
      exact List.any_eq_false.mp hany a ha
    simp [hnil]
  · obtain ⟨x, hx, hpx⟩ := List.any_eq_true.mp hany
    have hmem : x ∈ l.filter p := List.mem_filter.mpr ⟨hx, hpx⟩
    simp [List.length_pos_of_mem hmem]

/-- C3 (counterexample): the claim states that whenever "SSL 2.0" is in the
supported-version list the returned protocol score is 0, but for
`["SSL 2.0", "TLS 1.3"]` the code first sets the score to 0 and then applies
the TLS 1.3 bonus, returning 5, not 0. -/
theorem C3_ssl2_score_counterexample :
    calculate_protocol_score ["SSL 2.0", "TLS 1.3"] ≠ 0
      ∧ calculate_protocol_score ["SSL 2.0", "TLS 1.3"] = 5 := by
  decide

/-- C3 (amended): the protocol sub-score follows the claimed step sequence
(start at 100; SSL 2.0 sets 0; SSL 3.0 −80; TLS 1.0 −20; TLS 1.1 −10;
TLS 1.3 +5 capped at 100; −50 when neither TLS 1.2 nor TLS 1.3; saturating),
and with SSL 2.0 present the result is 0 when TLS 1.3 is absent but 5 when
TLS 1.3 is also present, because the TLS 1.3 bonus is applied after the
SSL 2.0 reset. -/
theorem C3_protocol_score_amended (vs : List String) :
    calculate_protocol_score vs = protocolScoreSpecified vs
      ∧ (vs.contains "SSL 2.0" = true →
          calculate_protocol_score vs = if vs.contains "TLS 1.3" then 5 else 0) := by
  simp only [calculate_protocol_score, protocolScoreSpecified]
  generalize vs.contains "SSL 2.0" = b2
  generalize vs.contains "SSL 3.0" = b3
  generalize vs.contains "TLS 1.0" = b10
  generalize vs.contains "TLS 1.1" = b11
  generalize vs.contains "TLS 1.2" = b12
  generalize vs.contains "TLS 1.3" = b13
  revert b2 b3 b10 b11 b12 b13
  decide

/-- C3 (witness for the amended theorem): instantiated at
`["SSL 2.0", "TLS 1.3"]`, where the hypothesis of the second conjunct holds
and the score evaluates to 5. -/
theorem C3_protocol_score_witness :
    calculate_protocol_score ["SSL 2.0", "TLS 1.3"]
        = protocolScoreSpecified ["SSL 2.0", "TLS 1.3"]
      ∧ calculate_protocol_score ["SSL 2.0", "TLS 1.3"] = 5 := by
  have h := C3_protocol_score_amended ["SSL 2.0", "TLS 1.3"]
  refine ⟨h.1, ?_⟩
  rw [h.2 (by decide)]
  decide

/-- C4 (counterexample): for `"AES128-GCM-SHA256"` (an OpenSSL-style name of
a real suite) no weak marker matches, the claimed medium condition
(AES-128 **without** GCM) does not match, and a high marker (GCM) matches,
so the claim classifies it HIGH; the code returns MEDIUM because its medium
tier matches `aes128` regardless of GCM. -/
theorem C4_aes128gcm_counterexample :
    hasWeakMarker "AES128-GCM-SHA256" = false
      ∧ hasMediumMarkerClaimed "AES128-GCM-SHA256" = false
      ∧ hasHighMarker "AES128-GCM-SHA256" = true
      ∧ classify_cipher_suite_strength "AES128-GCM-SHA256" = "MEDIUM" := by
  decide

/-- C4 (amended): the classifier returns WEAK exactly on the weak markers;
otherwise MEDIUM exactly when a medium marker (3DES, AES-128 regardless of
GCM, Camellia-128) matches or no high marker matches; otherwise HIGH exactly
when (no weak or medium marker and) a high marker matches — WEAK being
checked before HIGH, as the claim says. -/
theorem C4_cipher_classification_amended (name : String) :
    (classify_cipher_suite_strength name = "WEAK" ↔ hasWeakMarker name = true)
      ∧ (classify_cipher_suite_strength name = "HIGH" ↔
          (hasWeakMarker name = false ∧ hasMediumMarker name = false
            ∧ hasHighMarker name = true))
      ∧ (classify_cipher_suite_strength name = "MEDIUM" ↔
          (hasWeakMarker name = false
            ∧ (hasMediumMarker name = true
                ∨ (hasMediumMarker name = false ∧ hasHighMarker name = false)))) := by
  cases hw : hasWeakMarker name <;> cases hm : hasMediumMarker name
    <;> cases hh : hasHighMarker name
    <;> simp only [hasWeakMarker, hasMediumMarker, hasHighMarker] at hw hm hh
    <;> simp [classify_cipher_suite_strength, hw, hm, hh]

/-- `calculate_ssl_grade` as one disjunction: F on SSL 2.0, expiry or
`has_errors`, then the pure score arms. -/
theorem ssl_grade_conditions (score : ℕ) (he hw : Bool) (vs : List String) (now : ℤ)
    (cert : SslCertificate) :
    calculate_ssl_grade score he hw vs now cert =
      (if vs.contains "SSL 2.0"
          || (match cert.valid_to with
              | some vt => decide (days_until_expiry now vt < 0)
              | none => false)
          || he then "F"
        else if 95 ≤ score ∧ score ≤ 100 ∧ hw = false then "A+"
        else if 90 ≤ score ∧ score ≤ 94 ∧ hw = false then "A"
        else if 80 ≤ score ∧ score ≤ 89 then "A-"
        else if 70 ≤ score ∧ score ≤ 79 then "B"
        else if 60 ≤ score ∧ score ≤ 69 then "C"
        else if 50 ≤ score ∧ score ≤ 59 then "D"
        else "F") := by
  simp only [calculate_ssl_grade]
  cases hb2 : vs.contains "SSL 2.0"
  · cases hvt : cert.valid_to with
    | none => cases he <;> simp
    | some vt =>
      by_cases hexp : days_until_expiry now vt < 0
      · simp [hexp]
      · cases he <;> simp [hexp]
  · simp

/-- C1 (counterexample): a scan with no affected CRITICAL vulnerability, no
SSL 2.0 and no expired certificate whose composite score is 94; the claim
maps 90-94 to "A", but the code returns "F" because the cipher-strength
sub-score 40 sets `has_warnings`, and the 90-94 arm requires no warnings. -/
theorem C1_score94_grade_counterexample :
    (calculate_ssl_labs_rating 0 demoCert ["TLS 1.2", "TLS 1.3"] [demoWeakSuite] []).score = 94
      ∧ (["TLS 1.2", "TLS 1.3"] : List String).contains "SSL 2.0" = false
      ∧ demoCert.valid_to = none
      ∧ hasAffectedOfSeverity [] "CRITICAL" = false
      ∧ (calculate_ssl_labs_rating 0 demoCert ["TLS 1.2", "TLS 1.3"] [demoWeakSuite] []).has_errors
          = false
      ∧ (calculate_ssl_labs_rating 0 demoCert ["TLS 1.2", "TLS 1.3"] [demoWeakSuite] []).grade
          = "F" := by
  decide

/-- C1 (amended): the grade of the full rating pipeline equals the amended
mapping `sslGradeSpecified`: F whenever SSL 2.0 is supported, the certificate
is expired, or `has_errors` holds (affected CRITICAL, or protocol or
certificate sub-score below 20); A+/A additionally require the absence of
warnings (scores of 90-100 with warnings give F); then 80-89 A-, 70-79 B,
60-69 C, 50-59 D, else F. -/
theorem C1_grade_mapping_amended (now : ℤ) (cert : SslCertificate) (vs : List String)
    (cs : List CipherSuite) (vulns : List SecurityVulnerability) :
    (calculate_ssl_labs_rating now cert vs cs vulns).grade
      = sslGradeSpecified now cert vs cs vulns := by
  have hcrit := filterLengthPos_eq_any vulns (fun v => v.affected && v.severity == "CRITICAL")
  have hhigh := filterLengthPos_eq_any vulns (fun v => v.affected && v.severity == "HIGH")
  simp only [calculate_ssl_labs_rating, sslGradeSpecified, hasAffectedOfSeverity,
    countAffectedOfSeverity]
  rw [ssl_grade_conditions]
  rw [← hcrit, ← hhigh]

/-- C2 (counterexample): for a scan whose supported-version set is
`["SSL 2.0"]` the grade is "F" and DROWN is affected, but no finding with id
`DEPRECATED-SSL2` exists at all: the code only emits it when DROWN did *not*
fire, and DROWN fires exactly when SSL 2.0 is present, so the claimed
`DEPRECATED-SSL2, affected=true` finding can never accompany SSL 2.0. -/
theorem C2_deprecated_ssl2_counterexample :
    (calculate_ssl_labs_rating 0 demoCert ["SSL 2.0"] []
        (detect_cve_vulnerabilities demoCert ["SSL 2.0"] [])).grade = "F"
      ∧ (detect_cve_vulnerabilities demoCert ["SSL 2.0"] []).any
          (fun v => v.cve_id == "CVE-2016-0800" && v.affected) = true
      ∧ (detect_cve_vulnerabilities demoCert ["SSL 2.0"] []).all
          (fun v => !(v.cve_id == "DEPRECATED-SSL2")) = true := by
  decide

/-- C2 (amended): whenever "SSL 2.0" is in the supported-version set the
final grade is "F" and the structured vulnerability list contains the DROWN
finding (CVE-2016-0800, CRITICAL) with affected=true; the SSL2-deprecated
finding is suppressed (it is only emitted when DROWN did not fire, which
cannot happen with SSL 2.0 present), so no `DEPRECATED-SSL2` entry appears. -/
theorem C2_ssl2_forces_f_and_drown (now : ℤ) (cert : SslCertificate) (vs : List String)
    (cs : List CipherSuite) (h : vs.contains "SSL 2.0" = true) :
    (calculate_ssl_labs_rating now cert vs cs
        (detect_cve_vulnerabilities cert vs cs)).grade = "F"
      ∧ (∃ v ∈ detect_cve_vulnerabilities cert vs cs,
          v.cve_id = "CVE-2016-0800" ∧ v.severity = "CRITICAL" ∧ v.affected = true)
      ∧ (∀ v ∈ detect_cve_vulnerabilities cert vs cs, v.cve_id ≠ "DEPRECATED-SSL2") := by
  have h' : "SSL 2.0" ∈ vs := by simpa using h
  refine ⟨?_, ?_, ?_⟩
  · simp [calculate_ssl_labs_rating, calculate_ssl_grade, h']
  · refine ⟨⟨"CVE-2016-0800", "DROWN", "CRITICAL", true⟩, ?_, rfl, rfl, rfl⟩
    simp [detect_cve_vulnerabilities, h, List.mem_append, h']
  · intro v hv
    simp only [detect_cve_vulnerabilities, h, List.mem_append] at hv
    rcases hv with ((((((((((((h1 | h2) | h3) | h4) | h5) | h6) | h7) | h8) | h9) | h10)
      | h11) | h12) | h13) | h14
    all_goals first
      | (have hmem := mem_of_ite_singleton (by assumption); subst hmem; decide)
      | (simp_all; subst_vars; decide)
      | simp_all

/-- C2 (witness for the amended theorem): instantiated at the scan facts
`now = 0`, `demoCert`, versions `["SSL 2.0"]` and no cipher data. -/
theorem C2_ssl2_forces_f_and_drown_witness :
    (calculate_ssl_labs_rating 0 demoCert ["SSL 2.0"] []
        (detect_cve_vulnerabilities demoCert ["SSL 2.0"] [])).grade = "F"
      ∧ (∃ v ∈ detect_cve_vulnerabilities demoCert ["SSL 2.0"] [],
          v.cve_id = "CVE-2016-0800" ∧ v.severity = "CRITICAL" ∧ v.affected = true)
      ∧ (∀ v ∈ detect_cve_vulnerabilities demoCert ["SSL 2.0"] [],
          v.cve_id ≠ "DEPRECATED-SSL2") :=
  C2_ssl2_forces_f_and_drown 0 demoCert ["SSL 2.0"] [] (by decide)

/-- C5 (confirmed): the raw-socket legacy probe returns `Ok(supported)` where
`supported` is true exactly when the TCP connect and the write succeeded and
the reply satisfies the claimed classification: non-empty, byte 0 = 0x16,
byte 5 = 0x02 and the version at bytes 9-10 lexicographically at least the
requested version; an alert (0x15), an empty read, a read error or a timeout
all yield unsupported. -/
theorem C5_response_classification (env : RawProbeEnv) :
    (check_tls_version_with_raw_socket "TLS 1.0" env
        = .ok (env.tcp_connect_ok && env.write_ok
            && serverResponseSupportedSpecified 3 1 env.response))
      ∧ (check_tls_version_with_raw_socket "TLS 1.1" env
        = .ok (env.tcp_connect_ok && env.write_ok
            && serverResponseSupportedSpecified 3 2 env.response)) := by
  obtain ⟨tc, wr, resp⟩ := env
  have key : ∀ (ma mi : ℕ) (r : ReadOutcome),
      (match r with
        | .bytes data =>
          if 0 < data.length then
            if data.getD 0 0 = 0x16 ∧ data.getD 5 0 = 0x02 then
              Except.ok (ε := String) (decide ((data.getD 9 0 = ma ∧ mi ≤ data.getD 10 0)
                ∨ ma < data.getD 9 0))
            else if data.getD 0 0 = 0x15 then .ok false else .ok false
          else .ok false
        | .failed => .ok false)
        = .ok (serverResponseSupportedSpecified ma mi r) := by
    intro ma mi r
    cases r with
    | failed => simp [serverResponseSupportedSpecified]
    | bytes data =>
      simp only [serverResponseSupportedSpecified]
      rcases Nat.eq_zero_or_pos data.length with hz | hlen
      · have hnil : data = [] := List.eq_nil_of_length_eq_zero hz
        subst hnil
        simp
      · rw [if_pos hlen]
        have hne : data ≠ [] := by
          intro h; subst h; simp at hlen
        by_cases hhs : data.getD 0 0 = 0x16 ∧ data.getD 5 0 = 0x02
        · rw [if_pos hhs]
          congr 1
          rw [decide_eq_decide]
          constructor
          · rintro (⟨h1, h2⟩ | h)
            · exact ⟨hne, hhs.1, hhs.2, Or.inr ⟨h1, h2⟩⟩
            · exact ⟨hne, hhs.1, hhs.2, Or.inl h⟩
          · rintro ⟨-, -, -, (h | ⟨h1, h2⟩)⟩
            · exact Or.inr h
            · exact Or.inl ⟨h1, h2⟩
        · rw [if_neg hhs]
          have hfalse : ¬(data ≠ [] ∧ data.getD 0 0 = 0x16 ∧ data.getD 5 0 = 0x02
              ∧ (ma < data.getD 9 0 ∨ (data.getD 9 0 = ma ∧ mi ≤ data.getD 10 0))) := by
            rintro ⟨-, h1, h2, -⟩; exact hhs ⟨h1, h2⟩
          rw [decide_eq_false hfalse]
          split <;> rfl
  cases tc with
  | false => exact ⟨rfl, rfl⟩
  | true =>
    cases wr with
    | false => exact ⟨rfl, rfl⟩
    | true => exact ⟨key 3 1 resp, key 3 2 resp⟩

/-- The indexed node loop of `build_certificate_chain`, on a list where every
certificate parses: the fold is the map of `chain_node`. -/
theorem chain_fold_ok (now : ℤ) (n : ℕ) :
    ∀ (l : List (ℕ × SslCertificate)) (acc : List CertificateChainNode × List String),
      ((l.map (fun q => (q.1, Except.ok (ε := String) q.2))).foldl (chain_node_step now n) acc)
        = (acc.1 ++ l.map (fun q => chain_node now n q.1 q.2), acc.2) := by
  intro l
  induction l with
  | nil => intro acc; simp
  | cons x xs ih =>
    intro acc
    simp only [List.map_cons, List.foldl_cons, ih]
    simp [chain_node_step]

/-- On an all-parseable input, `build_certificate_chain` succeeds and its node
list is the indexed map of `chain_node`. -/
theorem build_chain_certificates_eq (now : ℤ) (certs : List SslCertificate)
    (h : certs ≠ []) :
    ∃ chain, build_certificate_chain now (certs.map Except.ok) = .ok chain
      ∧ chain.certificates
          = certs.enum.map (fun q => chain_node now certs.length q.1 q.2) := by
  have hne : (certs.map (Except.ok (ε := String))).isEmpty = false := by
    cases certs with
    | nil => exact absurd rfl h
    | cons a l => simp
  have henum : (certs.map (Except.ok (ε := String))).enum
      = certs.enum.map (fun (q : ℕ × SslCertificate) => (q.1, Except.ok (ε := String) q.2)) := by
    rw [List.enum_map]
    rfl
  have hM : (certs.map (Except.ok (ε := String))).length = certs.length := by simp
  have hfold := chain_fold_ok now (certs.map (Except.ok (ε := String))).length certs.enum ([], [])
  simp only [build_certificate_chain, hne, henum]
  rw [hfold]
  refine ⟨_, rfl, ?_⟩
  simp only [List.nil_append, hM]

/-- C10 (confirmed): in the scan-side chain builder the node flags are purely
positional — node `i` of an all-parseable input of length `n` has
`is_leaf = (i = 0)`, `is_root = (i = n-1)` and the positional
`trust_status` ("end-entity" at index 0 even for a self-signed single
certificate); a chain built from exactly one parseable certificate has its
single node marked leaf, root and "end-entity" regardless of
subject = issuer; and "self-signed"/"root-ca" are only ever assigned to the
last node of a chain of length at least two. -/
theorem C10_positional_chain_flags (now : ℤ) (certs : List SslCertificate)
    (h : certs ≠ []) :
    ∃ chain, build_certificate_chain now (certs.map Except.ok) = .ok chain
      ∧ chain.certificates.length = certs.length
      ∧ (∀ i, i < certs.length →
          (chain.certificates.getD i default).is_leaf = decide (i = 0)
          ∧ (chain.certificates.getD i default).is_root = decide (i = certs.length - 1)
          ∧ (chain.certificates.getD i default).trust_status =
              (if i = 0 then "end-entity"
               else if i = certs.length - 1 ∧ (certs.getD i default).subject
                      = (certs.getD i default).issuer then "self-signed"
               else if i = certs.length - 1 then "root-ca"
               else "intermediate"))
      ∧ (certs.length = 1 →
          (chain.certificates.getD 0 default).is_leaf = true
          ∧ (chain.certificates.getD 0 default).is_root = true
          ∧ (chain.certificates.getD 0 default).trust_status = "end-entity")
      ∧ (∀ i, i < certs.length →
          ((chain.certificates.getD i default).trust_status = "self-signed"
            ∨ (chain.certificates.getD i default).trust_status = "root-ca")
          → i = certs.length - 1 ∧ 2 ≤ certs.length) := by
  obtain ⟨chain, hok, hcerts⟩ := build_chain_certificates_eq now certs h
  have hidx : ∀ i, i < certs.length →
      (chain.certificates.getD i default).is_leaf = decide (i = 0)
      ∧ (chain.certificates.getD i default).is_root = decide (i = certs.length - 1)
      ∧ (chain.certificates.getD i default).trust_status =
          (if i = 0 then "end-entity"
           else if i = certs.length - 1 ∧ (certs.getD i default).subject
                  = (certs.getD i default).issuer then "self-signed"
           else if i = certs.length - 1 then "root-ca"
           else "intermediate") := by
    intro i hi
    have hsome : certs[i]? = some certs[i] := List.getElem?_eq_getElem hi
    rw [hcerts]
    simp only [List.getD_eq_getElem?_getD, List.getElem?_map, List.getElem?_enum, hsome,
      Option.map_some, Option.getD_some, chain_node]
    refine ⟨rfl, rfl, rfl⟩
  refine ⟨chain, hok, by rw [hcerts]; simp, hidx, ?_, ?_⟩
  · intro h1
    obtain ⟨hl, hr, ht⟩ := hidx 0 (by omega)
    refine ⟨by rw [hl]; rfl, by rw [hr, h1]; rfl, by rw [ht]; rfl⟩
  · intro i hi hstat
    obtain ⟨hl, hr, ht⟩ := hidx i hi
    rw [ht] at hstat
    by_cases h0 : i = 0
    · simp [h0] at hstat
    · by_cases hlast : i = certs.length - 1
      · exact ⟨hlast, by omega⟩
      · have hnot : ¬(i = certs.length - 1 ∧ (certs.getD i default).subject
            = (certs.getD i default).issuer) := fun hc => hlast hc.1
        simp [h0, hlast, hnot] at hstat

/-- C10 (witness): a single self-signed parseable certificate — the node is
leaf, root and "end-entity" even though subject = issuer. -/
theorem C10_positional_chain_flags_witness :
    ∃ chain, build_certificate_chain 0
        ([{ subject := "CN=root", issuer := "CN=root", valid_from := none, valid_to := none,
            fingerprint := "", serial_number := "01", signature_algorithm := "SHA256",
            public_key_algorithm := "RSA", key_size := none,
            san_domains := none }].map Except.ok) = .ok chain
      ∧ chain.certificates.length = 1
      ∧ (∀ i, i < 1 →
          (chain.certificates.getD i default).is_leaf = decide (i = 0)
          ∧ (chain.certificates.getD i default).is_root = decide (i = 1 - 1)
          ∧ (chain.certificates.getD i default).trust_status =
              (if i = 0 then "end-entity"
               else if i = 1 - 1
                      ∧ (([{ subject := "CN=root", issuer := "CN=root", valid_from := none,
                             valid_to := none, fingerprint := "", serial_number := "01",
                             signature_algorithm := "SHA256", public_key_algorithm := "RSA",
                             key_size := none,
                             san_domains := none }] : List SslCertificate).getD i
                          default).subject
                        = (([{ subject := "CN=root", issuer := "CN=root", valid_from := none,
                               valid_to := none, fingerprint := "", serial_number := "01",
                               signature_algorithm := "SHA256", public_key_algorithm := "RSA",
                               key_size := none,
                               san_domains := none }] : List SslCertificate).getD i
                            default).issuer then "self-signed"
               else if i = 1 - 1 then "root-ca"
               else "intermediate"))
      ∧ (1 = 1 →
          (chain.certificates.getD 0 default).is_leaf = true
          ∧ (chain.certificates.getD 0 default).is_root = true
          ∧ (chain.certificates.getD 0 default).trust_status = "end-entity")
      ∧ (∀ i, i < 1 →
          ((chain.certificates.getD i default).trust_status = "self-signed"
            ∨ (chain.certificates.getD i default).trust_status = "root-ca")
          → i = 1 - 1 ∧ 2 ≤ 1) :=
  C10_positional_chain_flags 0 _ (by decide)

/-- C9 (confirmed): `check_ssl_info` fails exactly when the trimmed,
lower-cased input is empty; for every other input, under every combination of
probe outcomes, it returns an `SslInfo` record whose `domain` is the trimmed,
lower-cased input, a DNS failure leaves `server_ip` absent, and a failed TLS
connection leaves every connection-derived field absent. -/
theorem C9_input_validation_and_degradation (domain : String) (env : ScanEnv) :
    (rustToLower (rustTrim domain) = "" →
        check_ssl_info domain env = .error "域名不能为空")
      ∧ (rustToLower (rustTrim domain) ≠ "" →
          ∃ r, check_ssl_info domain env = .ok r
            ∧ r.domain = rustToLower (rustTrim domain)
            ∧ ((∃ e, env.resolve_ip = .error e) → r.server_ip = none)
            ∧ ((∃ e, env.tls_connection = .error e) →
                r.certificate = none ∧ r.certificate_chain = none ∧ r.ssl_versions = none
                  ∧ r.cipher_suites = none ∧ r.protocol_support = none
                  ∧ r.server_cipher_order = none ∧ r.security_score = none
                  ∧ r.ssl_labs_rating = none ∧ r.vulnerabilities = none
                  ∧ r.recommendations = none ∧ r.cve_vulnerabilities = none
                  ∧ r.http2_support = none ∧ r.spdy_support = none
                  ∧ r.http3_support = none ∧ r.alpn_protocols = none)) := by
  constructor
  · intro hempty
    simp [check_ssl_info, hempty]
  · intro hne
    simp only [check_ssl_info, if_neg hne]
    refine ⟨_, rfl, rfl, ?_, ?_⟩
    · rintro ⟨e, he⟩
      simp [he]
    · rintro ⟨e, he⟩
      simp [he]

/-- C9 (witness): the input `"  Example.COM "` with every probe failing —
the call still returns a record with domain "example.com" and all
connection-derived fields absent. -/
theorem C9_input_validation_witness :
    ∃ r, check_ssl_info "  Example.COM " demoFailingEnv = .ok r
      ∧ r.domain = rustToLower (rustTrim "  Example.COM ")
      ∧ ((∃ e, demoFailingEnv.resolve_ip = .error e) → r.server_ip = none)
      ∧ ((∃ e, demoFailingEnv.tls_connection = .error e) →
          r.certificate = none ∧ r.certificate_chain = none ∧ r.ssl_versions = none
            ∧ r.cipher_suites = none ∧ r.protocol_support = none
            ∧ r.server_cipher_order = none ∧ r.security_score = none
            ∧ r.ssl_labs_rating = none ∧ r.vulnerabilities = none
            ∧ r.recommendations = none ∧ r.cve_vulnerabilities = none
            ∧ r.http2_support = none ∧ r.spdy_support = none
            ∧ r.http3_support = none ∧ r.alpn_protocols = none) :=
  (C9_input_validation_and_degradation "  Example.COM " demoFailingEnv).2 (by decide)

/-- The backpatched length fields of the hand-built ClientHello equal the
byte counts after the record and handshake headers: setting the placeholder
bytes 3-4 and 6-8 of `0x16 :: maj :: min :: 0 :: 0 :: 1 :: 0 :: 0 :: 0 :: tail`
produces the compositional layout with `be16`/`be24` length fields. -/
theorem backpatch_concat (maj minv : ℕ) (tail : List ℕ) :
    (let hello := 0x16 :: maj :: minv :: 0 :: 0 :: 1 :: 0 :: 0 :: 0 :: tail
     let handshake_length := hello.length - 6 - 3
     let hello2 := ((hello.set 6 (handshake_length / 65536 % 256)).set 7
         (handshake_length / 256 % 256)).set 8 (handshake_length % 256)
     let record_length := hello2.length - 3 - 2
     (hello2.set 3 (record_length / 256 % 256)).set 4 (record_length % 256))
    = 0x16 :: maj :: minv :: (be16 (tail.length + 4) ++ [1] ++ be24 tail.length ++ tail) := by
  simp [be16, be24, List.cons.injEq]

/-- `create_client_hello` builds exactly the compositional layout of
`clientHelloSpecified`, for every hostname and version bytes. -/
theorem create_client_hello_eq_specified (server_name : List ℕ) (maj minv : ℕ) :
    create_client_hello server_name maj minv = clientHelloSpecified server_name maj minv := by
  by_cases hsn : server_name.isEmpty
  · simp only [create_client_hello, clientHelloSpecified, hsn, if_pos, if_true,
      List.cons_append, List.nil_append, List.append_assoc]
    simp [be16, be24, List.cons.injEq, List.length_append]
  · simp only [create_client_hello, clientHelloSpecified, hsn, if_neg, Bool.false_eq_true,
      if_false, create_sni_extension, be16, be24, List.cons_append, List.nil_append,
      List.append_assoc]
    simp [List.cons.injEq, List.length_append]

/-- C6 (counterexample): for hostname "a" and TLS 1.0 the cipher-suite-list
length field (bytes 44-45) decodes to 2 — one 2-byte cipher suite, not the
two suites the claim states (which would need the value 4) — and the suite
list segment is the single suite `[0x00, 0x2F]`; likewise TLS 1.1 carries the
single suite `[0x00, 0x35]`. -/
theorem C6_single_cipher_suite_counterexample :
    ((create_client_hello [0x61] 3 1).getD 44 0) * 256
        + (create_client_hello [0x61] 3 1).getD 45 0 = 2
      ∧ ((create_client_hello [0x61] 3 1).drop 46).take 2 = [0x00, 0x2F]
      ∧ ((create_client_hello [0x61] 3 2).getD 44 0) * 256
        + (create_client_hello [0x61] 3 2).getD 45 0 = 2
      ∧ ((create_client_hello [0x61] 3 2).drop 46).take 2 = [0x00, 0x35]
      ∧ (2 : ℕ) ≠ 2 * 2 := by
  decide

/-- C6 (amended): for every hostname (as UTF-8 bytes, short enough that the
2-byte record length cannot wrap) and every version bytes, the hand-built
ClientHello equals the claimed compositional layout — record header
`0x16, major, minor`; backpatched record length = bytes after the record
header (decoded from bytes 3-4); backpatched handshake length = bytes after
the handshake header (decoded from bytes 6-8); ClientHello type byte,
protocol version, 32 bytes of 0x01 random, zero-length session id, a
version-appropriate list of exactly **one** cipher suite for TLS 1.0/1.1, a
single null compression method, and an SNI extension block exactly when the
hostname is non-empty. -/
theorem C6_client_hello_layout (server_name : List ℕ) (major minor : ℕ)
    (hb : server_name.length ≤ 65477) :
    create_client_hello server_name major minor
        = clientHelloSpecified server_name major minor
      ∧ ((create_client_hello server_name major minor).getD 3 0) * 256
          + (create_client_hello server_name major minor).getD 4 0
        = (create_client_hello server_name major minor).length - 5
      ∧ ((create_client_hello server_name major minor).getD 6 0) * 65536
          + ((create_client_hello server_name major minor).getD 7 0) * 256
          + (create_client_hello server_name major minor).getD 8 0
        = (create_client_hello server_name major minor).length - 9 := by
  refine ⟨create_client_hello_eq_specified server_name major minor, ?_⟩
  rw [create_client_hello_eq_specified]
  by_cases hsn : server_name.isEmpty
  · by_cases hv1 : major = 3 ∧ minor = 1
    · simp [clientHelloSpecified, hsn, hv1, be16, be24, List.length_append]
    · by_cases hv2 : major = 3 ∧ minor = 2
      · simp [clientHelloSpecified, hsn, hv1, hv2, be16, be24, List.length_append]
      · simp [clientHelloSpecified, hsn, hv1, hv2, be16, be24, List.length_append]
  · by_cases hv1 : major = 3 ∧ minor = 1
    · simp [clientHelloSpecified, hsn, hv1, be16, be24, List.length_append,
        create_sni_extension]
      omega
    · by_cases hv2 : major = 3 ∧ minor = 2
      · simp [clientHelloSpecified, hsn, hv1, hv2, be16, be24, List.length_append,
          create_sni_extension]
        omega
      · simp [clientHelloSpecified, hsn, hv1, hv2, be16, be24, List.length_append,
          create_sni_extension]
        omega

/-- C6 (witness): hostname "a" (one byte) with TLS 1.0 version bytes. -/
theorem C6_client_hello_layout_witness :
    create_client_hello [0x61] 3 1 = clientHelloSpecified [0x61] 3 1
      ∧ ((create_client_hello [0x61] 3 1).getD 3 0) * 256
          + (create_client_hello [0x61] 3 1).getD 4 0
        = (create_client_hello [0x61] 3 1).length - 5
      ∧ ((create_client_hello [0x61] 3 1).getD 6 0) * 65536
          + ((create_client_hello [0x61] 3 1).getD 7 0) * 256
          + (create_client_hello [0x61] 3 1).getD 8 0
        = (create_client_hello [0x61] 3 1).length - 9 :=
  C6_client_hello_layout [0x61] 3 1 (by decide)

end SslChecker

end Devtools

namespace Devtools
namespace CertificateViewer

theorem extractFirst_spec {p : α → Bool} :
    ∀ {l : List α} {x : α} {rest : List α}, extractFirst p l = some (x, rest) →
      p x = true ∧ (x :: rest).Perm l := by
  intro l
  induction l with
  | nil => intro x rest h; simp [extractFirst] at h
  | cons a as ih =>
    intro x rest h
    simp only [extractFirst] at h
    by_cases hp : p a
    · simp [hp] at h
      obtain ⟨rfl, rfl⟩ := h
      exact ⟨hp, List.Perm.refl _⟩
    · simp [hp] at h
      obtain ⟨b, c, hbc, rfl, rfl⟩ := h
      obtain ⟨hpb, hperm⟩ := ih hbc
      exact ⟨hpb, (List.Perm.swap a b c).trans (hperm.cons a)⟩

theorem extractFirst_none {p : α → Bool} :
    ∀ {l : List α}, extractFirst p l = none → ∀ y ∈ l, p y = false := by
  intro l
  induction l with
  | nil => intro _ y hy; simp at hy
  | cons a as ih =>
    intro h y hy
    simp only [extractFirst] at h
    by_cases hp : p a
    · simp [hp] at h
    · simp [hp] at h
      rcases List.mem_cons.mp hy with rfl | hy2
      · exact Bool.eq_false_iff.mpr hp
      · exact ih h y hy2

theorem extractFirst_eq_none {p : α → Bool} :
    ∀ {l : List α}, (∀ y ∈ l, p y = false) → extractFirst p l = none := by
  intro l
  induction l with
  | nil => intro _; rfl
  | cons a as ih =>
    intro h
    simp only [extractFirst]
    rw [h a (by simp)]
    simp [ih (fun y hy => h y (by simp [hy]))]

theorem extractMinLevelFirst_spec :
    ∀ {l : List CertificateInfo} {x rest}, extractMinLevelFirst l = some (x, rest) →
      (∀ y ∈ l, x.chain_level ≤ y.chain_level) ∧ (x :: rest).Perm l := by
  intro l
  induction l with
  | nil => intro x rest h; simp [extractMinLevelFirst] at h
  | cons a as ih =>
    intro x rest h
    simp only [extractMinLevelFirst] at h
    cases hm : extractMinLevelFirst as with
    | none =>
      rw [hm] at h
      have : as = [] := by
        cases as with
        | nil => rfl
        | cons b bs =>
          exfalso
          simp only [extractMinLevelFirst] at hm
          cases hm2 : extractMinLevelFirst bs <;> rw [hm2] at hm <;> simp at hm
          split at hm <;> simp at hm
      subst this
      simp at h
      obtain ⟨rfl, rfl⟩ := h
      exact ⟨by simp, List.Perm.refl _⟩
    | some m =>
      obtain ⟨m1, rest1⟩ := m
      rw [hm] at h
      obtain ⟨hmin, hperm⟩ := ih hm
      simp only at h
      split at h
      · rename_i hlt
        simp at h
        obtain ⟨rfl, rfl⟩ := h
        refine ⟨?_, (List.Perm.swap a m1 rest1).trans (hperm.cons a)⟩
        intro y hy
        rcases List.mem_cons.mp hy with rfl | hy2
        · omega
        · exact hmin y hy2
      · rename_i hge
        simp at h
        obtain ⟨rfl, rfl⟩ := h
        refine ⟨?_, List.Perm.refl _⟩
        intro y hy
        rcases List.mem_cons.mp hy with rfl | hy2
        · omega
        · have := hmin y hy2
          omega

theorem extractMaxLevelLast_spec :
    ∀ {l : List CertificateInfo} {x rest}, extractMaxLevelLast l = some (x, rest) →
      (∀ y ∈ l, y.chain_level ≤ x.chain_level) ∧ (x :: rest).Perm l := by
  intro l
  induction l with
  | nil => intro x rest h; simp [extractMaxLevelLast] at h
  | cons a as ih =>
    intro x rest h
    simp only [extractMaxLevelLast] at h
    cases hm : extractMaxLevelLast as with
    | none =>
      rw [hm] at h
      have : as = [] := by
        cases as with
        | nil => rfl
        | cons b bs =>
          exfalso
          simp only [extractMaxLevelLast] at hm
          cases hm2 : extractMaxLevelLast bs <;> rw [hm2] at hm <;> simp at hm
          split at hm <;> simp at hm
      subst this
      simp at h
      obtain ⟨rfl, rfl⟩ := h
      exact ⟨by simp, List.Perm.refl _⟩
    | some m =>
      obtain ⟨m1, rest1⟩ := m
      rw [hm] at h
      obtain ⟨hmax, hperm⟩ := ih hm
      simp only at h
      split at h
      · rename_i hle
        simp at h
        obtain ⟨rfl, rfl⟩ := h
        refine ⟨?_, (List.Perm.swap a m1 rest1).trans (hperm.cons a)⟩
        intro y hy
        rcases List.mem_cons.mp hy with rfl | hy2
        · omega
        · exact hmax y hy2
      · rename_i hgt
        simp at h
        obtain ⟨rfl, rfl⟩ := h
        refine ⟨?_, List.Perm.refl _⟩
        intro y hy
        rcases List.mem_cons.mp hy with rfl | hy2
        · omega
        · have := hmax y hy2
          omega

theorem extractMinLevelFirst_eq_none :
    ∀ {l : List CertificateInfo}, extractMinLevelFirst l = none → l = [] := by
  intro l h
  cases l with
  | nil => rfl
  | cons a as =>
    exfalso
    simp only [extractMinLevelFirst] at h
    cases hm : extractMinLevelFirst as <;> rw [hm] at h <;> simp at h
    split at h <;> simp at h

theorem extractMaxLevelLast_eq_none :
    ∀ {l : List CertificateInfo}, extractMaxLevelLast l = none → l = [] := by
  intro l h
  cases l with
  | nil => rfl
  | cons a as =>
    exfalso
    simp only [extractMaxLevelLast] at h
    cases hm : extractMaxLevelLast as <;> rw [hm] at h <;> simp at h
    split at h <;> simp at h

theorem chain_walk_perm :
    ∀ (n : ℕ) (rem : List CertificateInfo), rem.length = n →
      ∀ cur, (chain_walk cur rem).Perm rem := by
  intro n
  induction n using Nat.strong_induction_on with
  | _ n ih =>
    intro rem hlen cur
    rw [chain_walk.eq_def]
    cases rem with
    | nil => simp
    | cons a as =>
      cases hf : extractFirst
          (fun cert => certificates_match_issuer_subject cur.subject cert.issuer) (a :: as) with
      | some r =>
        obtain ⟨next, rest⟩ := r
        obtain ⟨hpn, hperm⟩ := extractFirst_spec hf
        have hrl : rest.length + 1 = (a :: as).length := extractFirst_length hf
        have ihr := ih rest.length (by omega) rest rfl next
        simp only
        exact (ihr.cons next).trans hperm
      | none =>
        cases hmn : extractMinLevelFirst (a :: as) with
        | none => exact absurd (extractMinLevelFirst_eq_none hmn) (by simp)
        | some r =>
          obtain ⟨lo, rest⟩ := r
          obtain ⟨hmin, hperm⟩ := extractMinLevelFirst_spec hmn
          have hrl : rest.length + 1 = (a :: as).length := extractMinLevelFirst_length hmn
          have ihr := ih rest.length (by omega) rest rfl lo
          simp only
          exact (ihr.cons lo).trans hperm

theorem chainStepOk_cons (c : CertificateInfo) (out : List CertificateInfo) (j : ℕ) :
    chainStepOk (c :: out) (j + 1) ↔ chainStepOk out j := by
  simp [chainStepOk, List.getD_cons_succ, List.drop_succ_cons]

theorem chain_walk_steps :
    ∀ (n : ℕ) (rem : List CertificateInfo), rem.length = n →
      ∀ cur i, i + 1 < (cur :: chain_walk cur rem).length →
        chainStepOk (cur :: chain_walk cur rem) i := by
  intro n
  induction n using Nat.strong_induction_on with
  | _ n ih =>
    intro rem hlen cur i hi
    have hlenw : (chain_walk cur rem).length = rem.length :=
      (chain_walk_perm rem.length rem rfl cur).length_eq
    have hi2 : i < rem.length := by
      simp only [List.length_cons, hlenw] at hi
      omega
    rw [chain_walk.eq_def]
    cases rem with
    | nil => simp at hi2
    | cons a as =>
      cases hf : extractFirst
          (fun cert => certificates_match_issuer_subject cur.subject cert.issuer) (a :: as) with
      | some r =>
        obtain ⟨next, rest⟩ := r
        simp only
        obtain ⟨hpn, hperm⟩ := extractFirst_spec hf
        have hrl : rest.length + 1 = (a :: as).length := extractFirst_length hf
        cases i with
        | zero =>
          left
          simpa using hpn
        | succ j =>
          rw [chainStepOk_cons]
          have hwl : (chain_walk next rest).length = rest.length :=
            (chain_walk_perm rest.length rest rfl next).length_eq
          have hrl2 : rest.length + 1 = as.length + 1 := by simpa using hrl
          have hn : as.length + 1 = n := by simpa using hlen
          have hi3 : j + 1 < as.length + 1 := by simpa using hi2
          refine ih rest.length (by omega) rest rfl next j ?_
          simp only [List.length_cons, hwl]
          omega
      | none =>
        simp only
        cases hmn : extractMinLevelFirst (a :: as) with
        | none => exact absurd (extractMinLevelFirst_eq_none hmn) (by simp)
        | some r =>
          obtain ⟨lo, rest⟩ := r
          simp only
          obtain ⟨hmin, hperm⟩ := extractMinLevelFirst_spec hmn
          have hrl : rest.length + 1 = (a :: as).length := extractMinLevelFirst_length hmn
          cases i with
          | zero =>
            right
            have hnom := extractFirst_none hf
            have hwperm := chain_walk_perm rest.length rest rfl lo
            have hmem : ∀ y, y ∈ lo :: chain_walk lo rest → y ∈ a :: as := by
              intro y hy
              rcases List.mem_cons.mp hy with rfl | hy2
              · exact hperm.mem_iff.mp (by simp)
              · exact hperm.mem_iff.mp (by simp [hwperm.mem_iff.mp hy2])
            constructor
            · intro y hy
              simp only [List.getD_cons_zero, List.drop_succ_cons, List.drop_zero] at hy ⊢
              exact hnom y (hmem y hy)
            · intro y hy
              simp only [List.getD_cons_succ, List.getD_cons_zero, List.drop_succ_cons,
                List.drop_zero] at hy ⊢
              exact hmin y (hmem y hy)
          | succ j =>
            rw [chainStepOk_cons]
            have hwl : (chain_walk lo rest).length = rest.length :=
              (chain_walk_perm rest.length rest rfl lo).length_eq
            have hrl2 : rest.length + 1 = as.length + 1 := by simpa using hrl
            have hn : as.length + 1 = n := by simpa using hlen
            have hi3 : j + 1 < as.length + 1 := by simpa using hi2
            refine ih rest.length (by omega) rest rfl lo j ?_
            simp only [List.length_cons, hwl]
            omega

theorem certificates_match_eq_specified (s i : NameInfo) :
    certificates_match_issuer_subject s i = matchesIssuerSubjectSpecified s i := by
  unfold certificates_match_issuer_subject matchesIssuerSubjectSpecified
  cases h1 : (!s.cn.isEmpty && !i.cn.isEmpty && (s.cn == i.cn)) <;>
    cases h2 : (!s.o.isEmpty && !i.o.isEmpty && (s.o == i.o)) <;>
      cases h3 : (!s.ou.isEmpty && !i.ou.isEmpty && (s.ou == i.ou)) <;>
        simp [h1, h2, h3]

theorem order_certificates_by_chain_perm (certs : List CertificateInfo) :
    (order_certificates_by_chain certs).Perm certs := by
  unfold order_certificates_by_chain
  cases hf : extractFirst is_cert_self_signed certs with
  | some r =>
    obtain ⟨root, rest⟩ := r
    obtain ⟨_, hperm⟩ := extractFirst_spec hf
    exact ((chain_walk_perm rest.length rest rfl root).cons root).trans hperm
  | none =>
    cases hm : extractMaxLevelLast certs with
    | none => simp [extractMaxLevelLast_eq_none hm]
    | some r =>
      obtain ⟨hi, rest⟩ := r
      obtain ⟨_, hperm⟩ := extractMaxLevelLast_spec hm
      exact ((chain_walk_perm rest.length rest rfl hi).cons hi).trans hperm

theorem string_beq_comm (x y : String) : (x == y) = (y == x) := by
  by_cases h : x = y
  · subst h; rfl
  · have h2 : ¬ y = x := fun hh => h hh.symm
    simp [beq_iff_eq, h, h2]

theorem is_duplicate_certificate_comm (a b : CertificateInfo) :
    is_duplicate_certificate a b = is_duplicate_certificate b a := by
  unfold is_duplicate_certificate
  by_cases hs : a.serial_number = b.serial_number
  · rw [if_pos hs, if_pos hs.symm]
  · have hs2 : ¬ b.serial_number = a.serial_number := fun hh => hs hh.symm
    simp only [if_neg hs, if_neg hs2]
    cases a.sha256_fingerprint <;> cases b.sha256_fingerprint <;>
      cases a.sha1_fingerprint <;> cases b.sha1_fingerprint <;>
        simp only [string_beq_comm]

theorem dedup_foldl_pairwise :
    ∀ (l acc : List CertificateInfo),
      (∀ a ∈ acc, ∀ b ∈ l, is_duplicate_certificate a b = false) →
      l.Pairwise (fun a b => is_duplicate_certificate a b = false) →
      l.foldl
        (fun deduped cert =>
          if deduped.any (fun existing => is_duplicate_certificate existing cert) then deduped
          else deduped ++ [cert])
        acc = acc ++ l := by
  intro l
  induction l with
  | nil => intro acc _ _; simp
  | cons x xs ih =>
    intro acc hacc hpw
    have hnodup : acc.any (fun existing => is_duplicate_certificate existing x) = false := by
      simp only [List.any_eq_false]
      intro a ha
      simp [hacc a ha x (by simp)]
    simp only [List.foldl_cons, hnodup, Bool.false_eq_true, if_false]
    rw [ih (acc ++ [x]) ?_ hpw.tail]
    · simp
    · intro a ha b hb
      rcases List.mem_append.mp ha with ha2 | ha2
      · exact hacc a ha2 b (by simp [hb])
      · have : a = x := by simpa using ha2
        subst this
        exact (List.pairwise_cons.mp hpw).1 b hb

theorem deduplicate_pairwise_eq {l : List CertificateInfo}
    (h : l.Pairwise (fun a b => is_duplicate_certificate a b = false)) :
    deduplicate_certificates l = l := by
  unfold deduplicate_certificates
  simpa using dedup_foldl_pairwise l [] (by simp) h

theorem build_certificate_chain_perm (l : List CertificateInfo) :
    (build_certificate_chain l).Perm l := by
  unfold build_certificate_chain
  by_cases h : l.length ≤ 1
  · simp [h]
  · simp only [if_neg h]
    by_cases ho : (order_certificates_by_chain l).isEmpty
    · simp only [ho, Bool.not_true, Bool.false_eq_true, if_false]
      exact List.mergeSort_perm l _
    · simp only [ho, Bool.not_false, if_pos rfl]
      exact order_certificates_by_chain_perm l

/-- C7: for every deduplicated certificate list with at least two
elements, the ordering of `order_certificates_by_chain`: (a) compares issuers
to subjects exactly as the specification words it (CN, then O, then OU, the
first non-empty equal field deciding); (b) uses every certificate exactly
once, so no leftover certificates remain for the trailing ascending-level
append; (c) starts with a self-signed certificate when one exists; (d)
otherwise starts with a certificate of maximal chain level; and (e) every
adjacent pair is either an issuer match, or a fallback step in which no
remaining certificate matched and the chosen one has minimal chain level
among the remaining ones. -/
theorem C7_chain_ordering (certs : List CertificateInfo)
    (hded : deduplicate_certificates certs = certs)
    (h2 : 2 ≤ certs.length) :
    (∀ s i, certificates_match_issuer_subject s i = matchesIssuerSubjectSpecified s i)
    ∧ (order_certificates_by_chain certs).Perm certs
    ∧ ((∃ c ∈ certs, is_cert_self_signed c = true) →
        is_cert_self_signed ((order_certificates_by_chain certs).getD 0 default) = true)
    ∧ ((∀ c ∈ certs, is_cert_self_signed c = false) →
        ∀ c ∈ certs,
          c.chain_level ≤ ((order_certificates_by_chain certs).getD 0 default).chain_level)
    ∧ (∀ i, i + 1 < (order_certificates_by_chain certs).length →
        chainStepOk (order_certificates_by_chain certs) i) := by
  refine ⟨certificates_match_eq_specified, order_certificates_by_chain_perm certs, ?_, ?_, ?_⟩
  · rintro ⟨c, hc, hcss⟩
    cases hf : extractFirst is_cert_self_signed certs with
    | none =>
      have := extractFirst_none hf c hc
      simp [hcss] at this
    | some r =>
      obtain ⟨root, rest⟩ := r
      obtain ⟨hroot, _⟩ := extractFirst_spec hf
      simp only [order_certificates_by_chain, hf, List.getD_cons_zero]
      exact hroot
  · intro hnone c hc
    have hf : extractFirst is_cert_self_signed certs = none := extractFirst_eq_none hnone
    cases hm : extractMaxLevelLast certs with
    | none =>
      have := extractMaxLevelLast_eq_none hm
      subst this
      simp at h2
    | some r =>
      obtain ⟨hi, rest⟩ := r
      obtain ⟨hmax, _⟩ := extractMaxLevelLast_spec hm
      simp only [order_certificates_by_chain, hf, hm, List.getD_cons_zero]
      exact hmax c hc
  · intro i hi
    cases hf : extractFirst is_cert_self_signed certs with
    | some r =>
      obtain ⟨root, rest⟩ := r
      simp only [order_certificates_by_chain, hf] at hi ⊢
      exact chain_walk_steps rest.length rest rfl root i hi
    | none =>
      cases hm : extractMaxLevelLast certs with
      | none =>
        have := extractMaxLevelLast_eq_none hm
        subst this
        simp at h2
      | some r =>
        obtain ⟨hi2, rest⟩ := r
        simp only [order_certificates_by_chain, hf, hm] at hi ⊢
        exact chain_walk_steps rest.length rest rfl hi2 i hi

theorem C7_chain_ordering_witness :
    (deduplicate_certificates [demoC7Root, demoC7Leaf] = [demoC7Root, demoC7Leaf]
      ∧ 2 ≤ ([demoC7Root, demoC7Leaf] : List CertificateInfo).length)
    ∧ ((∀ s i, certificates_match_issuer_subject s i = matchesIssuerSubjectSpecified s i)
    ∧ (order_certificates_by_chain [demoC7Root, demoC7Leaf]).Perm [demoC7Root, demoC7Leaf]
    ∧ ((∃ c ∈ [demoC7Root, demoC7Leaf], is_cert_self_signed c = true) →
        is_cert_self_signed
          ((order_certificates_by_chain [demoC7Root, demoC7Leaf]).getD 0 default) = true)
    ∧ ((∀ c ∈ [demoC7Root, demoC7Leaf], is_cert_self_signed c = false) →
        ∀ c ∈ [demoC7Root, demoC7Leaf],
          c.chain_level ≤
            ((order_certificates_by_chain [demoC7Root, demoC7Leaf]).getD 0 default).chain_level)
    ∧ (∀ i, i + 1 < (order_certificates_by_chain [demoC7Root, demoC7Leaf]).length →
        chainStepOk (order_certificates_by_chain [demoC7Root, demoC7Leaf]) i)) :=
  ⟨⟨by decide, by decide⟩, C7_chain_ordering [demoC7Root, demoC7Leaf] (by decide) (by decide)⟩

/-- C8 (counterexample): two distinct certificates that share a serial
number: the deduplication pass keeps whichever comes first, so permuting the
input changes even the certificate *set* of the reconstructed chain — the
outputs are not equal, and not even permutations of one another. -/
theorem C8_reordering_counterexample :
    ([demoC8DupY, demoC8DupX] : List CertificateInfo).Perm [demoC8DupX, demoC8DupY]
      ∧ reconstruct_chain [demoC8DupY, demoC8DupX]
          ≠ reconstruct_chain [demoC8DupX, demoC8DupY]
      ∧ ¬ (reconstruct_chain [demoC8DupY, demoC8DupX]).Perm
            (reconstruct_chain [demoC8DupX, demoC8DupY]) := by
  refine ⟨List.Perm.swap demoC8DupX demoC8DupY [], by decide, ?_⟩
  intro h
  have h1 : demoC8DupY ∈ reconstruct_chain [demoC8DupY, demoC8DupX] := by decide
  have h2 : demoC8DupY ∈ reconstruct_chain [demoC8DupX, demoC8DupY] := h.mem_iff.mp h1
  revert h2
  decide

/-- C8 (amended): when no two input certificates are duplicates of one
another, permuting the input list yields a reconstructed chain that is a
permutation of the original reconstruction: deduplication is then the
identity and every ordering pass emits each certificate exactly once, so the
output certificate set is reorder-invariant; the *sequence* itself may still
differ at the documented fallback ties. -/
theorem C8_reordering_amended (l l2 : List CertificateInfo)
    (hnd : l.Pairwise (fun a b => is_duplicate_certificate a b = false))
    (hp : l2.Perm l) :
    (reconstruct_chain l2).Perm (reconstruct_chain l) := by
  have hnd2 : l2.Pairwise (fun a b => is_duplicate_certificate a b = false) :=
    (hp.pairwise_iff (by intro a b h; rwa [is_duplicate_certificate_comm])).mpr hnd
  unfold reconstruct_chain
  rw [deduplicate_pairwise_eq hnd, deduplicate_pairwise_eq hnd2]
  exact (build_certificate_chain_perm l2).trans (hp.trans (build_certificate_chain_perm l).symm)

theorem C8_reordering_amended_witness :
    (([demoC8NdLeaf, demoC8NdRoot] : List CertificateInfo).Pairwise
        (fun a b => is_duplicate_certificate a b = false)
      ∧ ([demoC8NdRoot, demoC8NdLeaf] : List CertificateInfo).Perm [demoC8NdLeaf, demoC8NdRoot])
    ∧ (reconstruct_chain [demoC8NdRoot, demoC8NdLeaf]).Perm
        (reconstruct_chain [demoC8NdLeaf, demoC8NdRoot]) :=
  ⟨⟨by decide, List.Perm.swap demoC8NdLeaf demoC8NdRoot []⟩,
    C8_reordering_amended [demoC8NdLeaf, demoC8NdRoot] [demoC8NdRoot, demoC8NdLeaf] (by decide)
      (List.Perm.swap demoC8NdLeaf demoC8NdRoot [])⟩

end CertificateViewer
end Devtools
